import Mathlib

/-! Frame processing and scan state machine of the ZBar Marmalade demo.

A shallow embedding of `src/main.cpp`: the camera callbacks
(`CameraUpdateCallback`, `CameraStoppedCallback`, `ScanQrCodeCallback`),
`StartCamera`, `StopCamera` and the button handler, as pure functions on an
explicit record of the program's global variables.

Conventions.
* `uint` is 32 bits wide: where a `uint` expression can wrap, the embedding
  reduces it modulo `2^32` (`u32`, `usub`).
* A pixel pointer is the offset (an `Int`, counted in pixels) from the start of
  the buffer it points into; the crop-and-rotate loops record every
  `*dest++ = *src` as the pair (destination index, source offset).
* What the platform decides (allocation results, registration results, what the
  recognition engine returns) is an explicit argument of the operation.
-/

namespace ZBarDemo

/-! ## Machine arithmetic -/

/-- Reduction of a natural number to the 32-bit `uint` range. -/
def u32 (n : Nat) : Nat := n % 4294967296

/-- Subtraction of `uint` values, `a - b` modulo `2^32`. -/
def usub (a b : Nat) : Nat := (a % 4294967296 + 4294967296 - b % 4294967296) % 4294967296

/-! ## Crop window (`CameraUpdateCallback`, lines 232-244) -/

/-- The three globals `g_CameraSquareDimension`, `g_CameraCropXStart` and
`g_CameraCropYStart`. -/
structure CropWindow where
  squareDim : Nat
  cropX : Nat
  cropY : Nat
deriving DecidableEq, Repr

/-- The cropping dimensions computed from the raw frame size. The subtraction is
guarded by the comparison, so on `uint` operands it never wraps. -/
def cropWindow (frameWidth frameHeight : Nat) : CropWindow :=
  if frameWidth > frameHeight then
    { squareDim := frameHeight
      cropX := (frameWidth - frameHeight) / 2
      cropY := 0 }
  else
    { squareDim := frameWidth
      cropX := 0
      cropY := (frameHeight - frameWidth) / 2 }

/-! ## Crop and rotate (`CameraUpdateCallback`, lines 288-347) -/

/-- Modelled from the spec: the declaration of the frame rotation enum
(`s3eCamera.h`) is not part of the repository; the four supported rotations
0, 90, 180 and 270 degrees are the cases of the `switch`. -/
inductive s3eCameraFrameRotation
  | S3E_CAMERA_FRAME_ROTNORMAL
  | S3E_CAMERA_FRAME_ROT90
  | S3E_CAMERA_FRAME_ROT180
  | S3E_CAMERA_FRAME_ROT270
deriving DecidableEq, Repr

open s3eCameraFrameRotation

/-- The two moving pointers of the copy loops and the writes done so far, each
write `*dest++ = *src` recorded as (destination index, source offset). -/
structure CopyState where
  src : Int
  dest : Nat
  trace : List (Nat × Int)
deriving DecidableEq, Repr

/-- The inner loop `for(uint j = n; j; --j, src += innerStep) *dest++ = *src;`. -/
def innerLoop (innerStep : Int) : Nat → CopyState → CopyState
  | 0, st => st
  | j + 1, st =>
    innerLoop innerStep j
      { src := st.src + innerStep
        dest := st.dest + 1
        trace := st.trace ++ [(st.dest, st.src)] }

/-- The outer loop `for(uint i = n; i; --i, src += outerStep)` around the inner
loop of `n` iterations. -/
def outerLoop (n : Nat) (innerStep outerStep : Int) : Nat → CopyState → CopyState
  | 0, st => st
  | i + 1, st =>
    let row := innerLoop innerStep n st
    outerLoop n innerStep outerStep i { row with src := row.src + outerStep }

/-- The `switch(frameRotation)` of `CameraUpdateCallback`: the writes performed,
in order, for a frame of width `frameWidth` and the stored crop window
`(S, cropX, cropY)`. -/
def cropRotate (frameWidth S cropX cropY : Nat) (rot : s3eCameraFrameRotation) :
    List (Nat × Int) :=
  let src : Int := (u32 (cropX + u32 (cropY * frameWidth)) : Nat)
  match rot with
  | S3E_CAMERA_FRAME_ROTNORMAL =>
    let srcDelta : Nat := usub frameWidth S
    (outerLoop S 1 srcDelta S { src := src, dest := 0, trace := [] }).trace
  | S3E_CAMERA_FRAME_ROT90 =>
    let srcDelta : Nat := u32 (1 + u32 (S * frameWidth))
    let src := src + (usub S 1 : Nat)
    (outerLoop S frameWidth (-(srcDelta : Int)) S { src := src, dest := 0, trace := [] }).trace
  | S3E_CAMERA_FRAME_ROT180 =>
    let srcDelta : Nat := usub frameWidth S
    let src := src + (usub (u32 (S * frameWidth)) srcDelta : Nat)
    (outerLoop S (-1) (-(srcDelta : Int)) S { src := src, dest := 0, trace := [] }).trace
  | S3E_CAMERA_FRAME_ROT270 =>
    let srcDelta : Nat := u32 (1 + u32 (S * frameWidth))
    let src := src + (u32 (usub S 1 * frameWidth) : Nat)
    (outerLoop S (-(frameWidth : Int)) srcDelta S { src := src, dest := 0, trace := [] }).trace

/-- The pixel of the frame at a source offset; an offset outside the frame data
has no defined content and reads as 0 here. -/
def readPixel (frameData : List Nat) (off : Int) : Nat :=
  if off < 0 then 0 else frameData.getD off.toNat 0

/-- The destination buffer after the recorded writes have been done in order. -/
def storePixels (frameData : List Nat) (trace : List (Nat × Int)) (dest : List Nat) :
    List Nat :=
  trace.foldl (fun buf w => buf.set w.1 (readPixel frameData w.2)) dest

/-! ## Luma conversion (`ScanQrCodeCallback`, lines 374-382) -/

/-- The body of the conversion loop for one RGB565 pixel: the three `uint8`
channels, the `int` weighted sum and the clamped `uint8` result. -/
def toLuma (p : Nat) : Nat :=
  let r : Nat := ((p &&& 0xf800) >>> 8) % 256
  let g : Nat := ((p &&& 0x07e0) >>> 3) % 256
  let b : Nat := ((p &&& 0x001f) <<< 3) % 256
  let yuv800 : Int := ((77 * r + 150 * g + 29 * b : Nat) : Int) / 256
  if yuv800 > 255 then 255 else if yuv800 < 0 then 0 else (yuv800 % 256).toNat

/-- The conversion loop `for(uint i = 0; i < numPixels; ++i, ++src) *dest++ = ...`,
with `k` iterations left at index `i`. -/
def lumaLoop (src : List Nat) : Nat → Nat → List Nat → List Nat
  | 0, _, dest => dest
  | k + 1, i, dest => lumaLoop src k (i + 1) (dest.set i (toLuma (src.getD i 0)))

/-! ## Session state: the global variables of `main.cpp` -/

inductive CameraState
  | CAMERA_IDLE
  | CAMERA_LOADING
  | CAMERA_STREAMING
  | CAMERA_UNAVAILABLE
deriving DecidableEq, Repr

open CameraState

/-- The pixel formats named in `StartCamera` and `CameraUpdateCallback`. -/
inductive s3eCameraPixelType
  | S3E_CAMERA_PIXEL_TYPE_RGB565
  | S3E_CAMERA_PIXEL_TYPE_RGB888
  | S3E_CAMERA_PIXEL_TYPE_NV21
  | S3E_CAMERA_PIXEL_TYPE_NV12
  | S3E_CAMERA_PIXEL_TYPE_BGRA8888
  | S3E_CAMERA_PIXEL_TYPE_RGB565_CONVERTED
deriving DecidableEq, Repr

open s3eCameraPixelType

/-- The fields of `s3eCameraFrameData` that `CameraUpdateCallback` reads;
`m_Data` is the frame's pixels as 16-bit values. -/
structure s3eCameraFrameData where
  m_Width : Nat
  m_Height : Nat
  m_Pitch : Nat
  m_Rotation : s3eCameraFrameRotation
  m_PixelType : s3eCameraPixelType
  m_Data : List Nat
deriving DecidableEq, Repr

/-- A heap block: its address, the byte size it was allocated with and its
elements (16-bit pixels or 8-bit luma values). -/
structure Buffer where
  addr : Nat
  size : Nat
  cells : List Nat
deriving DecidableEq, Repr

/-- What `CopyFromBuffer` is given when the texture is created. -/
structure CIwTexture where
  width : Nat
  height : Nat
  pitch : Nat
  texels : Nat
deriving DecidableEq, Repr

/-- What `zbar_image_set_size` and `zbar_image_set_data` bind the image to:
its dimensions and the address and byte length of its data. -/
structure zbar_image_t where
  width : Nat
  height : Nat
  data : Nat
  dataLength : Nat
deriving DecidableEq, Repr

/-- The symbol types the program tells apart: `ZBAR_QRCODE` and every other. -/
inductive zbar_symbol_type_t
  | ZBAR_QRCODE
  | ZBAR_OTHER (code : Nat)
deriving DecidableEq, Repr

open zbar_symbol_type_t

/-- A decoded symbol: what `zbar_symbol_get_type` and `zbar_symbol_get_data`
return for it. -/
structure zbar_symbol_t where
  get_type : zbar_symbol_type_t
  get_data : String
deriving DecidableEq, Repr

/-- Calls into the platform that the properties speak about. -/
inductive Effect
  | s3eTimerSetTimer (ms : Nat)
  | s3eDebugErrorShow (msg : String)
  | Upload
  | zbar_scan_image
  | s3eDeviceRequestQuit
deriving DecidableEq, Repr

/-- The global variables, and the platform state the program changes through
the s3e and UI calls: the two callback registrations, whether the camera
stream runs, the status label and the scan button. -/
structure Session where
  g_CameraState : CameraState
  g_pCameraTexelsRGB565 : Option Buffer
  g_FrameResolution : Nat
  g_FrameRotation : s3eCameraFrameRotation
  g_CameraSquareDimension : Nat
  g_CameraCropXStart : Nat
  g_CameraCropYStart : Nat
  g_pCameraTextureRGB565 : Option CIwTexture
  qrCodeFound : Bool
  g_pCameraPixelsGrayscale : Option Buffer
  g_pZBarScanner : Bool
  g_pZBarImage : Option zbar_image_t
  updateRegistered : Bool
  stoppedRegistered : Bool
  cameraStarted : Bool
  statusCaption : String
  scanButtonEnabled : Bool
deriving DecidableEq, Repr

/-- The period between two scans, `g_QrScanTimeout`. -/
def g_QrScanTimeout : Nat := 1000

/-- The globals as initialised at program start. -/
def initialSession : Session :=
  { g_CameraState := CAMERA_IDLE
    g_pCameraTexelsRGB565 := none
    g_FrameResolution := 0
    g_FrameRotation := S3E_CAMERA_FRAME_ROTNORMAL
    g_CameraSquareDimension := 0
    g_CameraCropXStart := 0
    g_CameraCropYStart := 0
    g_pCameraTextureRGB565 := none
    qrCodeFound := false
    g_pCameraPixelsGrayscale := none
    g_pZBarScanner := false
    g_pZBarImage := none
    updateRegistered := false
    stoppedRegistered := false
    cameraStarted := false
    statusCaption := ""
    scanButtonEnabled := false }

/-! ## `StopCamera`, `CameraStoppedCallback`, `StartCamera` -/

/-- Lines 156-186: unregister both callbacks, stop the camera, free the two
buffers, delete the texture, the image and the scanner. -/
def StopCamera (s : Session) : Session :=
  { s with
    updateRegistered := false
    stoppedRegistered := false
    cameraStarted := false
    g_CameraState := CAMERA_IDLE
    g_pCameraTexelsRGB565 := none
    g_pCameraPixelsGrayscale := none
    g_pCameraTextureRGB565 := none
    g_pZBarImage := none
    g_pZBarScanner := false }

/-- Lines 357-361. -/
def CameraStoppedCallback (s : Session) : Session := StopCamera s

/-- What the platform answers during `StartCamera`. -/
structure StartEnv where
  s3eCameraAvailable : Bool
  s3eCameraStart : Bool
  registerUpdate : Bool
  registerStopped : Bool
  zbar_image_scanner_create : Bool
deriving DecidableEq, Repr

/-- Lines 82-153. -/
def StartCamera (s : Session) (env : StartEnv) : Session × List Effect :=
  if env.s3eCameraAvailable ≠ true then
    ({ s with statusCaption := "Camera not available!", g_CameraState := CAMERA_UNAVAILABLE },
      [Effect.s3eDebugErrorShow "Camera not available."])
  else if env.s3eCameraStart ≠ true then
    ({ s with g_CameraState := CAMERA_UNAVAILABLE },
      [Effect.s3eDebugErrorShow "Error starting camera."])
  else
    let s1 := { s with cameraStarted := true, g_CameraState := CAMERA_LOADING }
    if env.registerUpdate ≠ true then
      ({ StopCamera s1 with g_CameraState := CAMERA_UNAVAILABLE },
        [Effect.s3eDebugErrorShow "Error registering camera."])
    else
      let s2 := { s1 with updateRegistered := true }
      if env.registerStopped ≠ true then
        ({ StopCamera s2 with g_CameraState := CAMERA_UNAVAILABLE },
          [Effect.s3eDebugErrorShow "Error registering camera."])
      else
        let s3 := { s2 with stoppedRegistered := true }
        let s4 := { s3 with g_pZBarScanner := env.zbar_image_scanner_create }
        if s4.g_pZBarScanner = false then
          (StopCamera s4, [Effect.s3eDebugErrorShow "Failed to initialize ZBar."])
        else
          (s4, [])

/-! ## `CameraUpdateCallback` -/

/-- What the platform answers during one `CameraUpdateCallback`: the addresses
returned by the two `s3eRealloc` calls (`none` for `NULL`) and whether
`zbar_image_create` returned an image. -/
structure FrameEnv where
  texelsRealloc : Option Nat
  grayscaleRealloc : Option Nat
  zbar_image_create : Bool
deriving DecidableEq, Repr

/-- The elements of a block after `realloc` to `n` elements: the old ones up to
the smaller of the two sizes; added elements have no defined content (0 here). -/
def resizeCells (old : List Nat) (n : Nat) : List Nat :=
  old.take n ++ List.replicate (n - old.length) 0

/-- The pointer returned by the call `s3eRealloc(ptr, size)` for a block of elements of
`elemBytes` bytes, the platform answering with address `result` (`none`: the call
returned `NULL`). The value is what the program assigns to its pointer; `none` says
that the pointer is `NULL`, not that a block was freed: when the call fails the old
block stays allocated, see `reallocLost`. -/
def s3eRealloc (ptr : Option Buffer) (size elemBytes : Nat) (result : Option Nat) :
    Option Buffer :=
  match result with
  | none => none
  | some a =>
    some { addr := a
           size := size
           cells := resizeCells (match ptr with | none => [] | some b => b.cells)
                      (size / elemBytes) }

/-- Lines 281-353: store the frame's resolution and rotation, copy the cropped
and rotated frame into the display buffer unless a QR code was found, and
upload the texture. -/
def copyFrame (s : Session) (f : s3eCameraFrameData) (fx : List Effect) :
    Session × List Effect :=
  let s1 := { s with
    g_FrameResolution := u32 (f.m_Width * f.m_Height)
    g_FrameRotation := f.m_Rotation }
  if s1.g_pCameraTextureRGB565.isSome then
    let s2 :=
      if s1.qrCodeFound = false then
        { s1 with
          g_pCameraTexelsRGB565 := s1.g_pCameraTexelsRGB565.map fun b =>
            { b with
              cells := storePixels f.m_Data
                (cropRotate f.m_Width s1.g_CameraSquareDimension s1.g_CameraCropXStart
                  s1.g_CameraCropYStart f.m_Rotation) b.cells } }
      else s1
    (s2, fx ++ [Effect.Upload])
  else
    (s1, fx)

/-- Lines 232-250: compute the cropping dimensions from the frame size and
(re)allocate the two buffers. -/
def reallocate (s : Session) (f : s3eCameraFrameData) (env : FrameEnv) : Session :=
  let cw := cropWindow f.m_Width f.m_Height
  let s1 := { s with
    g_CameraSquareDimension := cw.squareDim
    g_CameraCropXStart := cw.cropX
    g_CameraCropYStart := cw.cropY }
  let cameraGrayscaleBufferSize := u32 (s1.g_CameraSquareDimension * s1.g_CameraSquareDimension)
  let cameraRGB565BufferSize := u32 (cameraGrayscaleBufferSize * 2)
  { s1 with
    g_pCameraTexelsRGB565 :=
      s3eRealloc s1.g_pCameraTexelsRGB565 cameraRGB565BufferSize 2 env.texelsRealloc
    g_pCameraPixelsGrayscale :=
      s3eRealloc s1.g_pCameraPixelsGrayscale cameraGrayscaleBufferSize 1 env.grayscaleRealloc }

/-- The blocks that lines 249-250 leave allocated with no pointer to them: the old
block of each of the two buffers whose `s3eRealloc` failed, the `NULL` returned
having been assigned to the only pointer to it. -/
def reallocLost (s : Session) (env : FrameEnv) : List Buffer :=
  (match env.texelsRealloc, s.g_pCameraTexelsRGB565 with
    | none, some b => [b]
    | _, _ => []) ++
  (match env.grayscaleRealloc, s.g_pCameraPixelsGrayscale with
    | none, some b => [b]
    | _, _ => [])

/-- Lines 259-278: create the texture over the display buffer `texels` and, when
the scanner exists, destroy the image and create one bound to the luma buffer
`gray`. -/
def createTextureAndImage (s : Session) (env : FrameEnv) (texels gray : Buffer) : Session :=
  let cameraGrayscaleBufferSize := u32 (s.g_CameraSquareDimension * s.g_CameraSquareDimension)
  let s1 := { s with
    g_pCameraTextureRGB565 := some
      { width := s.g_CameraSquareDimension
        height := s.g_CameraSquareDimension
        pitch := u32 (s.g_CameraSquareDimension <<< 1)
        texels := texels.addr } }
  if s1.g_pZBarScanner = true then
    { s1 with
      g_pZBarImage :=
        if env.zbar_image_create = true then
          some { width := s1.g_CameraSquareDimension
                 height := s1.g_CameraSquareDimension
                 data := gray.addr
                 dataLength := cameraGrayscaleBufferSize }
        else none }
  else s1

/-- Lines 202-353: the body of `CameraUpdateCallback` once the state check has
passed; `fx` are the effects of the state check. -/
def processFrame (s : Session) (f : s3eCameraFrameData) (env : FrameEnv) (fx : List Effect) :
    Session × List Effect :=
  let frameResolution := u32 (f.m_Width * f.m_Height)
  let frameRotation := f.m_Rotation
  if s.g_pCameraTexelsRGB565 = none ∨ frameResolution ≠ s.g_FrameResolution ∨
      frameRotation ≠ s.g_FrameRotation then
    if f.m_PixelType ≠ S3E_CAMERA_PIXEL_TYPE_RGB565_CONVERTED then
      ({ StopCamera s with g_CameraState := CAMERA_UNAVAILABLE },
        fx ++ [Effect.s3eDebugErrorShow "Camera pixel format error."])
    else
      let s2 := reallocate s f env
      match s2.g_pCameraTexelsRGB565, s2.g_pCameraPixelsGrayscale with
      | some texels, some gray => copyFrame (createTextureAndImage s2 env texels gray) f fx
      | _, _ =>
        (StopCamera s2, fx ++ [Effect.s3eDebugErrorShow "Not enough memory for camera."])
  else
    copyFrame s f fx

/-- Lines 195-196: the first frame has been received. -/
def firstFrameReceived (s : Session) : Session :=
  { s with g_CameraState := CAMERA_STREAMING, statusCaption := "Scanning for QR Code..." }

/-- Lines 191-354. -/
def CameraUpdateCallback (s : Session) (f : s3eCameraFrameData) (env : FrameEnv) :
    Session × List Effect :=
  if s.g_CameraState = CAMERA_LOADING then
    processFrame (firstFrameReceived s) f env [Effect.s3eTimerSetTimer g_QrScanTimeout]
  else if s.g_CameraState ≠ CAMERA_STREAMING then
    (s, [])
  else
    processFrame s f env []

/-! ## `ScanQrCodeCallback` -/

/-- What the recognition engine answers during one scan: the return value of
`zbar_scan_image` and the symbols then attached to the image, in order. -/
structure ScanEnv where
  zbar_scan_image : Int
  symbols : List zbar_symbol_t
deriving DecidableEq, Repr

/-- The body of the loop over the symbols, lines 392-406. -/
def symbolStep (s : Session) (symbol : zbar_symbol_t) : Session :=
  if symbol.get_type = ZBAR_QRCODE then
    { s with
      qrCodeFound := true
      statusCaption := "QR Code found: " ++ symbol.get_data
      scanButtonEnabled := true }
  else s

/-- Lines 365-413. -/
def ScanQrCodeCallback (s : Session) (env : ScanEnv) : Session × List Effect :=
  if s.qrCodeFound = false ∧ s.g_CameraState = CAMERA_STREAMING ∧ s.g_pZBarImage.isSome then
    let numPixels := u32 (s.g_CameraSquareDimension * s.g_CameraSquareDimension)
    let src : List Nat := match s.g_pCameraTexelsRGB565 with
      | none => []
      | some b => b.cells
    let s1 := { s with
      g_pCameraPixelsGrayscale := s.g_pCameraPixelsGrayscale.map fun b =>
        { b with cells := lumaLoop src numPixels 0 b.cells } }
    let s2 := if env.zbar_scan_image ≠ 0 then env.symbols.foldl symbolStep s1 else s1
    (s2, [Effect.zbar_scan_image, Effect.s3eTimerSetTimer g_QrScanTimeout])
  else
    (s, [Effect.s3eTimerSetTimer g_QrScanTimeout])

/-! ## The button handler -/

/-- Lines 74-79. -/
def RequestQuit (s : Session) : Session × List Effect :=
  if s.g_CameraState = CAMERA_LOADING ∨ s.g_CameraState = CAMERA_STREAMING then
    (StopCamera s, [Effect.s3eDeviceRequestQuit])
  else
    (s, [Effect.s3eDeviceRequestQuit])

/-- The button of a button event. -/
inductive PressedButton
  | g_pScanButton
  | g_pQuitButton
  | anotherButton
deriving DecidableEq, Repr

/-- An event given to `FilterEvent`: a button event or any other. -/
inductive CIwEvent
  | IWUI_EVENT_BUTTON (button : PressedButton)
  | anotherEvent
deriving DecidableEq, Repr

/-- Lines 48-71; the Boolean is the value returned. -/
def FilterEvent (s : Session) (pEvent : CIwEvent) : (Session × List Effect) × Bool :=
  match pEvent with
  | CIwEvent.IWUI_EVENT_BUTTON PressedButton.g_pScanButton =>
    (({ s with
        qrCodeFound := false
        scanButtonEnabled := false
        statusCaption := "Scanning for QR Code..." }, []), true)
  | CIwEvent.IWUI_EVENT_BUTTON PressedButton.g_pQuitButton => (RequestQuit s, true)
  | _ => ((s, []), false)

/-! ## The operations of the specification -/

/-- The caller's `start()`. -/
def start (s : Session) (env : StartEnv) : Session := (StartCamera s env).1

/-- The caller's `stop()`. -/
def stop (s : Session) : Session := StopCamera s

/-- The stop notification of the camera. -/
def onStreamStopped (s : Session) : Session := CameraStoppedCallback s

/-- The frame notification of the camera. -/
def onFrame (s : Session) (f : s3eCameraFrameData) (env : FrameEnv) : Session × List Effect :=
  CameraUpdateCallback s f env

/-- The firing of the scan timer. -/
def onScanTick (s : Session) (env : ScanEnv) : Session × List Effect :=
  ScanQrCodeCallback s env

/-- The caller's `requestRescan()`: a press of the scan button. -/
def requestRescan (s : Session) : Session :=
  (FilterEvent s (CIwEvent.IWUI_EVENT_BUTTON PressedButton.g_pScanButton)).1.1

/-! ## Closed forms and the specification's luma -/

/-- The luma of a pixel in the words of the specification: unpack the 5/6/5-bit
channels scaled to 8 bits, weigh them, shift and clamp to `[0, 255]`. -/
def lumaSpec (p : Nat) : Nat :=
  let R := (p &&& 0xF800) >>> 8
  let G := (p &&& 0x07E0) >>> 3
  let B := (p &&& 0x001F) <<< 3
  min 255 (max 0 ((77 * R + 150 * G + 29 * B) >>> 8))

/-- The source offset read for destination row `r`, column `c`, in closed form; that
the loops of `cropRotate` read exactly these offsets is `cropRotate_lookup`. For
rotation 180 the column read is `S - c`, one to the right of the mirrored column
`S - 1 - c`. -/
def srcOffset (W S cX cY : Nat) (rot : s3eCameraFrameRotation) (r c : Nat) : Nat :=
  match rot with
  | S3E_CAMERA_FRAME_ROTNORMAL => (cY + r) * W + cX + c
  | S3E_CAMERA_FRAME_ROT90 => (cY + c) * W + cX + (S - 1 - r)
  | S3E_CAMERA_FRAME_ROT180 => (cY + (S - 1 - r)) * W + cX + (S - c)
  | S3E_CAMERA_FRAME_ROT270 => (cY + (S - 1 - c)) * W + cX + r

/-- The display buffer that `reallocate` installs at address `a`. -/
def newTexels (s : Session) (f : s3eCameraFrameData) (a : Nat) : Buffer :=
  { addr := a
    size := u32 (u32 ((cropWindow f.m_Width f.m_Height).squareDim *
      (cropWindow f.m_Width f.m_Height).squareDim) * 2)
    cells := resizeCells (match s.g_pCameraTexelsRGB565 with | none => [] | some b => b.cells)
      (u32 (u32 ((cropWindow f.m_Width f.m_Height).squareDim *
        (cropWindow f.m_Width f.m_Height).squareDim) * 2) / 2) }

/-- The luma buffer that `reallocate` installs at address `a`. -/
def newGray (s : Session) (f : s3eCameraFrameData) (a : Nat) : Buffer :=
  { addr := a
    size := u32 ((cropWindow f.m_Width f.m_Height).squareDim *
      (cropWindow f.m_Width f.m_Height).squareDim)
    cells := resizeCells (match s.g_pCameraPixelsGrayscale with | none => [] | some b => b.cells)
      (u32 ((cropWindow f.m_Width f.m_Height).squareDim *
        (cropWindow f.m_Width f.m_Height).squareDim) / 1) }

/-! ## Example sessions -/

/-- A platform on which every step of `StartCamera` succeeds. -/
def startOk : StartEnv :=
  { s3eCameraAvailable := true
    s3eCameraStart := true
    registerUpdate := true
    registerStopped := true
    zbar_image_scanner_create := true }

/-- A platform on which both allocations succeed, at the given addresses, and
the image is created. -/
def allocAt (texels gray : Nat) : FrameEnv :=
  { texelsRealloc := some texels, grayscaleRealloc := some gray, zbar_image_create := true }

/-- A frame in the supported pixel format. -/
def rgbFrame (w h : Nat) (rot : s3eCameraFrameRotation) (data : List Nat) :
    s3eCameraFrameData :=
  { m_Width := w
    m_Height := h
    m_Pitch := 2 * w
    m_Rotation := rot
    m_PixelType := S3E_CAMERA_PIXEL_TYPE_RGB565_CONVERTED
    m_Data := data }

/-- The session after a successful `start()`. -/
def loadingSession : Session := start initialSession startOk

/-- The session after two 2 by 4 frames: the second was processed while Streaming. -/
def portraitSession : Session :=
  (onFrame
    (onFrame loadingSession
      (rgbFrame 2 4 S3E_CAMERA_FRAME_ROTNORMAL [10, 11, 12, 13, 14, 15, 16, 17]) (allocAt 100 200)).1
    (rgbFrame 2 4 S3E_CAMERA_FRAME_ROTNORMAL [10, 11, 12, 13, 14, 15, 16, 17]) (allocAt 100 200)).1

/-- The session after one 2 by 2 frame and a scan that decoded a QR code. -/
def foundSession : Session :=
  (onScanTick
    (onFrame loadingSession (rgbFrame 2 2 S3E_CAMERA_FRAME_ROTNORMAL [10, 11, 12, 13])
      (allocAt 100 200)).1
    { zbar_scan_image := 1, symbols := [{ get_type := ZBAR_QRCODE, get_data := "HELLO" }] }).1

/-- The session after the conversion loop of `ScanQrCodeCallback` (lines 369-382):
the luma buffer holds the luma of the first `numPixels` display pixels. -/
def lumaConverted (s : Session) : Session :=
  { s with
    g_pCameraPixelsGrayscale := s.g_pCameraPixelsGrayscale.map fun b =>
      { b with
        cells := lumaLoop (match s.g_pCameraTexelsRGB565 with
          | none => []
          | some b => b.cells)
          (u32 (s.g_CameraSquareDimension * s.g_CameraSquareDimension)) 0 b.cells } }

/-! ## Sequences of notifications and the scan timer -/

/-- Whether an effect is a call of `s3eTimerSetTimer`. -/
def isSetTimer : Effect → Bool
  | Effect.s3eTimerSetTimer _ => true
  | _ => false

/-- The number of scan timers armed by a list of effects. -/
def timerArms (fx : List Effect) : Nat := fx.countP isSetTimer

/-- Frames delivered one after the other, each with what the platform answers
during it; the effects are those of all the calls, in order. -/
def onFrames (s : Session) : List (s3eCameraFrameData × FrameEnv) → Session × List Effect
  | [] => (s, [])
  | fe :: rest =>
    ((onFrames (onFrame s fe.1 fe.2).1 rest).1,
      (onFrame s fe.1 fe.2).2 ++ (onFrames (onFrame s fe.1 fe.2).1 rest).2)

/-- The session and the number of pending scan timers after one of the pending
timers has fired: the timer that fired is consumed and those armed by
`ScanQrCodeCallback` are added. Nothing happens when no timer is pending. -/
def fireScanTimer (st : Session × Nat) (env : ScanEnv) : Session × Nat :=
  match st.2 with
  | 0 => st
  | pending + 1 =>
    ((onScanTick st.1 env).1, pending + timerArms (onScanTick st.1 env).2)

/-- An operation on the session together with what the platform answers during it. -/
inductive Op
  | start (env : StartEnv)
  | stop
  | onStreamStopped
  | onFrame (f : s3eCameraFrameData) (env : FrameEnv)
  | onScanTick (env : ScanEnv)
  | requestRescan
deriving DecidableEq, Repr

/-- The session after one operation. -/
def step (s : Session) : Op → Session
  | Op.start env => start s env
  | Op.stop => stop s
  | Op.onStreamStopped => onStreamStopped s
  | Op.onFrame f env => (onFrame s f env).1
  | Op.onScanTick env => (onScanTick s env).1
  | Op.requestRescan => requestRescan s

/-- The session after a sequence of operations. -/
def run (s : Session) (ops : List Op) : Session := ops.foldl step s

/-- A frame delivered by an operation has fewer than `2^31` pixels, so that its
pixel count and the buffer sizes computed from it do not wrap in `uint`. -/
def opFits : Op → Bool
  | Op.onFrame f _ => decide (f.m_Width * f.m_Height < 2147483648)
  | _ => true

/-- The recognition image, when it exists, is bound to the current buffers: the
scanner exists, both buffers are allocated, the image has the stored square
dimension as width and height and the luma buffer as data, and the sizes are
those of the stored square dimension. -/
def imageBound (s : Session) : Prop :=
  ∀ img, s.g_pZBarImage = some img →
    s.g_pZBarScanner = true ∧
    ∃ texels gray, s.g_pCameraTexelsRGB565 = some texels ∧
      s.g_pCameraPixelsGrayscale = some gray ∧
      img.width = s.g_CameraSquareDimension ∧ img.height = s.g_CameraSquareDimension ∧
      img.data = gray.addr ∧
      img.dataLength = s.g_CameraSquareDimension * s.g_CameraSquareDimension ∧
      gray.size = s.g_CameraSquareDimension * s.g_CameraSquareDimension ∧
      gray.cells.length = s.g_CameraSquareDimension * s.g_CameraSquareDimension ∧
      texels.size = 2 * s.g_CameraSquareDimension * s.g_CameraSquareDimension ∧
      texels.cells.length = s.g_CameraSquareDimension * s.g_CameraSquareDimension

/-- A run of the session: a successful start, a 4 by 2 frame, a scan that finds
nothing, a 2 by 2 frame at rotation 90 for which the buffers move to new addresses,
a scan that decodes a QR code and a request to scan again. -/
def exampleOps : List Op :=
  [Op.start startOk,
   Op.onFrame (rgbFrame 4 2 S3E_CAMERA_FRAME_ROTNORMAL [10, 11, 12, 13, 14, 15, 16, 17])
     (allocAt 100 200),
   Op.onScanTick { zbar_scan_image := 0, symbols := [] },
   Op.onFrame (rgbFrame 2 2 S3E_CAMERA_FRAME_ROT90 [20, 21, 22, 23]) (allocAt 300 400),
   Op.onScanTick { zbar_scan_image := 1,
                   symbols := [{ get_type := ZBAR_QRCODE, get_data := "HELLO" }] },
   Op.requestRescan]

/-! ## The status text buffer (`ScanQrCodeCallback`, lines 398-400) -/

/-- The size of the local buffer `char qrString[512]`. -/
def qrStringSize : Nat := 512

/-- The indices of the destination that `strcpy(dest, src)` writes: one for each byte
of `src` and one for the terminator, from index 0 on. -/
def strcpyWrites (src : String) : List Nat :=
  List.range (src.utf8ByteSize + 1)

/-- The indices of the destination that `strcat(dest, src)` writes when `dest` holds a
string of `destLen` bytes: one for each byte of `src` and one for the terminator, from
index `destLen` (the old terminator) on. -/
def strcatWrites (destLen : Nat) (src : String) : List Nat :=
  (List.range (src.utf8ByteSize + 1)).map fun i => destLen + i

/-- The indices of `qrString` written by lines 399-400 for the symbol data `pQrData`:
`strcpy(qrString, "QR Code found: ")` and then `strcat(qrString, pQrData)`. -/
def qrStringWrites (pQrData : String) : List Nat :=
  strcpyWrites "QR Code found: " ++ strcatWrites "QR Code found: ".utf8ByteSize pQrData

/-- A QR payload of 497 bytes, the letter A repeated. -/
def longPayload : String := String.mk (List.replicate 497 'A')

/-- The session after a successful start and one 2 by 2 frame: Streaming, the
detection flag false, the recognition image present. -/
def scanningSession : Session :=
  (onFrame loadingSession (rgbFrame 2 2 S3E_CAMERA_FRAME_ROTNORMAL [10, 11, 12, 13])
    (allocAt 100 200)).1

/-! ## The copy loops in closed form -/

theorem innerLoop_src (k : Int) (j : Nat) (st : CopyState) :
    (innerLoop k j st).src = st.src + j * k := by
  induction j generalizing st with
  | zero => simp [innerLoop]
  | succ j ih =>
    rw [innerLoop, ih]
    push_cast
    ring

theorem innerLoop_dest (k : Int) (j : Nat) (st : CopyState) :
    (innerLoop k j st).dest = st.dest + j := by
  induction j generalizing st with
  | zero => simp [innerLoop]
  | succ j ih =>
    rw [innerLoop, ih]
    simp only []
    omega

theorem innerLoop_trace (k : Int) (j : Nat) (st : CopyState) :
    ∃ row : List (Nat × Int), (innerLoop k j st).trace = st.trace ++ row ∧ row.length = j ∧
      ∀ c, c < j → row[c]? = some (st.dest + c, st.src + c * k) := by
  induction j generalizing st with
  | zero => exact ⟨[], by simp [innerLoop]⟩
  | succ j ih =>
    obtain ⟨row, hrow, hlen, hget⟩ := ih
      { src := st.src + k, dest := st.dest + 1, trace := st.trace ++ [(st.dest, st.src)] }
    refine ⟨(st.dest, st.src) :: row, ?_, by simp [hlen], ?_⟩
    · rw [innerLoop, hrow]
      simp
    · intro c hc
      cases c with
      | zero => simp
      | succ c =>
        have h := hget c (by omega)
        simp only [List.getElem?_cons_succ, h]
        congr 2
        · omega
        · push_cast
          ring

theorem outerLoop_trace (n : Nat) (k o : Int) (i : Nat) (st : CopyState) :
    ∃ rest : List (Nat × Int), (outerLoop n k o i st).trace = st.trace ++ rest ∧
      rest.length = i * n ∧
      ∀ r c, r < i → c < n →
        rest[r * n + c]? = some (st.dest + (r * n + c), st.src + r * (n * k + o) + c * k) := by
  induction i generalizing st with
  | zero => exact ⟨[], by simp [outerLoop]⟩
  | succ i ih =>
    obtain ⟨row, hrow, hlen, hget⟩ := innerLoop_trace k n st
    obtain ⟨rest, hrest, hlen2, hget2⟩ := ih
      { innerLoop k n st with src := (innerLoop k n st).src + o }
    refine ⟨row ++ rest, ?_, ?_, ?_⟩
    · rw [outerLoop]
      simp only [] at hrest ⊢
      rw [hrest, hrow, List.append_assoc]
    · simp [hlen, hlen2]
      ring
    · intro r c hr hc
      cases r with
      | zero =>
        have h := hget c hc
        simp only [Nat.zero_mul, Nat.zero_add]
        rw [List.getElem?_append_left (by omega), h]
        simp
      | succ r =>
        have h := hget2 r c (by omega) hc
        simp only [innerLoop_src, innerLoop_dest] at h
        have e : (r + 1) * n + c = row.length + (r * n + c) := by rw [hlen]; ring
        rw [e, List.getElem?_append_right (by omega)]
        simp only [Nat.add_sub_cancel_left, h, hlen]
        congr 2
        · omega
        · push_cast
          ring

theorem storePixels_length (data : List Nat) (tr : List (Nat × Int)) (dest : List Nat) :
    (storePixels data tr dest).length = dest.length := by
  unfold storePixels
  induction tr generalizing dest with
  | nil => rfl
  | cons w t ih => simp [List.foldl_cons, ih]

theorem storePixels_sequential (data : List Nat) (tr : List (Nat × Int)) (dest : List Nat)
    (g : Nat → Int) (hlen : tr.length ≤ dest.length)
    (hseq : ∀ m, m < tr.length → tr[m]? = some (m, g m)) :
    ∀ m, m < tr.length → (storePixels data tr dest)[m]? = some (readPixel data (g m)) := by
  induction tr using List.reverseRecOn with
  | nil => intro m hm; simp at hm
  | append_singleton init w ih =>
    intro m hm
    have hw : w = (init.length, g init.length) := by
      have := hseq init.length (by simp)
      simpa using this
    have hstep : storePixels data (init ++ [w]) dest
        = (storePixels data init dest).set init.length (readPixel data (g init.length)) := by
      simp [storePixels, List.foldl_append, hw]
    rw [hstep]
    simp only [List.length_append, List.length_singleton] at hm hlen
    by_cases hmi : m = init.length
    · subst hmi
      rw [List.getElem?_set_self]
      rw [storePixels_length]
      omega
    · have hm2 : m < init.length := by omega
      rw [List.getElem?_set_ne (by omega)]
      apply ih (by omega) _ m hm2
      intro m2 hm2
      have := hseq m2 (by simp; omega)
      rwa [List.getElem?_append_left hm2] at this

theorem storePixels_grid (data : List Nat) (tr : List (Nat × Int)) (dest : List Nat) (S : Nat)
    (idx : Nat → Nat → Int) (hlen : tr.length = S * S) (hdest : S * S ≤ dest.length)
    (hlook : ∀ r c, r < S → c < S → tr[r * S + c]? = some (r * S + c, idx r c)) :
    ∀ r c, r < S → c < S →
      (storePixels data tr dest)[r * S + c]? = some (readPixel data (idx r c)) := by
  intro r c hr hc
  have hpos : 0 < S := by omega
  have key := storePixels_sequential data tr dest (fun m => idx (m / S) (m % S)) (by omega)
    (by
      intro m hm
      have h1 : m / S < S := by
        rw [Nat.div_lt_iff_lt_mul hpos]; omega
      have h2 : m % S < S := Nat.mod_lt _ hpos
      have h3 := hlook (m / S) (m % S) h1 h2
      rwa [Nat.div_add_mod' m S] at h3)
  have hm : r * S + c < tr.length := by
    rw [hlen]
    calc r * S + c < r * S + S := by omega
      _ = (r + 1) * S := by ring
      _ ≤ S * S := Nat.mul_le_mul_right S hr
  have h := key (r * S + c) hm
  have e1 : (r * S + c) / S = r := by
    rw [Nat.add_comm, Nat.add_mul_div_right _ _ hpos, Nat.div_eq_of_lt hc, Nat.zero_add]
  have e2 : (r * S + c) % S = c := by
    rw [Nat.add_comm, Nat.add_mul_mod_self_right, Nat.mod_eq_of_lt hc]
  simpa [e1, e2] using h

theorem u32_of_lt {n : Nat} (h : n < 4294967296) : u32 n = n := by
  unfold u32; omega

theorem usub_of_le {a b : Nat} (hb : b ≤ a) (ha : a < 4294967296) : usub a b = a - b := by
  unfold usub; omega

theorem cropWindow_inside (W H : Nat) :
    (cropWindow W H).squareDim ≤ W ∧ (cropWindow W H).squareDim ≤ H ∧
      (cropWindow W H).cropX + (cropWindow W H).squareDim ≤ W ∧
      (cropWindow W H).cropY + (cropWindow W H).squareDim ≤ H := by
  unfold cropWindow
  split <;> simp only [] <;> omega

theorem cropRotate_lookup (W H S cX cY : Nat) (rot : s3eCameraFrameRotation)
    (hfit : W * H < 2147483648) (hX : cX + S ≤ W) (hY : cY + S ≤ H) :
    (cropRotate W S cX cY rot).length = S * S ∧
      ∀ r c, r < S → c < S →
        (cropRotate W S cX cY rot)[r * S + c]?
          = some (r * S + c, ((srcOffset W S cX cY rot r c : Nat) : Int)) := by
  have hlenAll : (cropRotate W S cX cY rot).length = S * S := by
    unfold cropRotate
    cases rot <;> simp only [] <;>
    · obtain ⟨rest, h1, h2, -⟩ := outerLoop_trace S _ _ S { src := _, dest := 0, trace := [] }
      rw [h1]; simpa using h2
  refine ⟨hlenAll, ?_⟩
  intro r c hr hc
  have hS : 1 ≤ S := by omega
  have f1 : cY * W + S * W ≤ W * H := by
    calc cY * W + S * W = (cY + S) * W := by ring
      _ ≤ H * W := Nat.mul_le_mul_right W hY
      _ = W * H := Nat.mul_comm _ _
  have f2 : W ≤ S * W := Nat.le_mul_of_pos_left W hS
  have f3 : (S - 1) * W + W = S * W := by
    have : S = (S - 1) + 1 := by omega
    conv_rhs => rw [this, Nat.add_mul, Nat.one_mul]
  have e0 : u32 (cX + u32 (cY * W)) = cX + cY * W := by
    rw [u32_of_lt (n := cY * W) (by omega), u32_of_lt (by omega)]
  have e1 : usub W S = W - S := usub_of_le (by omega) (by omega)
  have e2 : u32 (1 + u32 (S * W)) = 1 + S * W := by
    rw [u32_of_lt (n := S * W) (by omega), u32_of_lt (by omega)]
  have e3 : usub S 1 = S - 1 := usub_of_le hS (by omega)
  have e4 : usub (u32 (S * W)) (W - S) = S * W - (W - S) := by
    rw [u32_of_lt (n := S * W) (by omega)]
    exact usub_of_le (by omega) (by omega)
  have e5 : u32 ((S - 1) * W) = (S - 1) * W := u32_of_lt (by omega)
  have c1 : ((S - 1 - r : Nat) : Int) = (S : Int) - 1 - r := by omega
  have c2 : ((S - 1 - c : Nat) : Int) = (S : Int) - 1 - c := by omega
  have c3 : ((S - c : Nat) : Int) = (S : Int) - c := by omega
  have c4 : ((W - S : Nat) : Int) = (W : Int) - S := by omega
  have c5 : ((S - 1 : Nat) : Int) = (S : Int) - 1 := by omega
  have c6 : ((S * W - (W - S) : Nat) : Int) = (S : Int) * W - (W - S) := by
    rw [Nat.cast_sub (by omega), c4]; push_cast; ring
  unfold cropRotate srcOffset
  cases rot <;> simp only [e0, e1, e2, e3, e4, e5]
  all_goals
    obtain ⟨rest, h1, -, h3⟩ := outerLoop_trace S _ _ S { src := _, dest := 0, trace := [] }
    rw [h1, List.nil_append, h3 r c hr hc]
    simp only [Nat.zero_add, Option.some.injEq, Prod.mk.injEq, true_and]
    push_cast [c1, c2, c3, c4, c5, c6]
    ring

theorem cropRotate_sequential (W H S cX cY : Nat) (rot : s3eCameraFrameRotation)
    (hfit : W * H < 2147483648) (hX : cX + S ≤ W) (hY : cY + S ≤ H) :
    ∀ k, k < S * S → ∃ off : Int, (cropRotate W S cX cY rot)[k]? = some (k, off) := by
  intro k hk
  have hpos : 0 < S := by
    rcases Nat.eq_zero_or_pos S with h | h
    · subst h; simp at hk
    · exact h
  have h1 : k / S < S := by
    rw [Nat.div_lt_iff_lt_mul hpos]; exact hk
  have h2 : k % S < S := Nat.mod_lt _ hpos
  have h3 := (cropRotate_lookup W H S cX cY rot hfit hX hY).2 (k / S) (k % S) h1 h2
  rw [Nat.div_add_mod' k S] at h3
  exact ⟨_, h3⟩

theorem readPixel_natCast (data : List Nat) (n : Nat) (h : n < data.length) :
    some (readPixel data (n : Int)) = data[n]? := by
  unfold readPixel
  have : ¬ ((n : Int) < 0) := by omega
  simp [this, List.getD_eq_getElem?_getD, List.getElem?_eq_getElem h]

theorem srcOffset_lt (W H S cX cY : Nat) (rot : s3eCameraFrameRotation)
    (hX : cX + S ≤ W) (hY : cY + S ≤ H) (hrot : rot ≠ S3E_CAMERA_FRAME_ROT180)
    (r c : Nat) (hr : r < S) (hc : c < S) :
    srcOffset W S cX cY rot r c < W * H := by
  have key : ∀ a b, a < H → b < W → a * W + b < W * H := by
    intro a b ha hb
    calc a * W + b < a * W + W := by omega
      _ = (a + 1) * W := by ring
      _ ≤ H * W := Nat.mul_le_mul_right W ha
      _ = W * H := Nat.mul_comm _ _
  unfold srcOffset
  cases rot <;> simp only [] at hrot ⊢
  · have := key (cY + r) (cX + c) (by omega) (by omega); omega
  · have := key (cY + c) (cX + (S - 1 - r)) (by omega) (by omega); omega
  · exact absurd rfl hrot
  · have := key (cY + (S - 1 - c)) (cX + r) (by omega) (by omega); omega

/-! ## What `copyFrame` leaves alone -/

theorem copyFrame_fields (s : Session) (f : s3eCameraFrameData) (fx : List Effect) :
    (copyFrame s f fx).1.g_CameraState = s.g_CameraState ∧
    (copyFrame s f fx).1.g_CameraSquareDimension = s.g_CameraSquareDimension ∧
    (copyFrame s f fx).1.g_CameraCropXStart = s.g_CameraCropXStart ∧
    (copyFrame s f fx).1.g_CameraCropYStart = s.g_CameraCropYStart ∧
    (copyFrame s f fx).1.g_pCameraTextureRGB565 = s.g_pCameraTextureRGB565 ∧
    (copyFrame s f fx).1.qrCodeFound = s.qrCodeFound ∧
    (copyFrame s f fx).1.g_pCameraPixelsGrayscale = s.g_pCameraPixelsGrayscale ∧
    (copyFrame s f fx).1.g_pZBarScanner = s.g_pZBarScanner ∧
    (copyFrame s f fx).1.g_pZBarImage = s.g_pZBarImage ∧
    (copyFrame s f fx).1.g_FrameResolution = u32 (f.m_Width * f.m_Height) ∧
    (copyFrame s f fx).1.g_FrameRotation = f.m_Rotation := by
  unfold copyFrame
  simp only []
  split
  · split <;> simp
  · simp

theorem copyFrame_found (s : Session) (f : s3eCameraFrameData) (fx : List Effect)
    (h : s.qrCodeFound = true) :
    (copyFrame s f fx).1.g_pCameraTexelsRGB565 = s.g_pCameraTexelsRGB565 := by
  unfold copyFrame
  simp only [h]
  split <;> simp

/-! ## The geometry branch of `processFrame` -/

theorem reallocate_fields (s : Session) (f : s3eCameraFrameData) (env : FrameEnv) :
    (reallocate s f env).g_CameraState = s.g_CameraState ∧
    (reallocate s f env).g_CameraSquareDimension = (cropWindow f.m_Width f.m_Height).squareDim ∧
    (reallocate s f env).g_CameraCropXStart = (cropWindow f.m_Width f.m_Height).cropX ∧
    (reallocate s f env).g_CameraCropYStart = (cropWindow f.m_Width f.m_Height).cropY ∧
    (reallocate s f env).g_pCameraTextureRGB565 = s.g_pCameraTextureRGB565 ∧
    (reallocate s f env).qrCodeFound = s.qrCodeFound ∧
    (reallocate s f env).g_pZBarScanner = s.g_pZBarScanner ∧
    (reallocate s f env).g_pZBarImage = s.g_pZBarImage ∧
    (reallocate s f env).g_FrameResolution = s.g_FrameResolution ∧
    (reallocate s f env).g_FrameRotation = s.g_FrameRotation := by
  simp [reallocate]

theorem reallocate_buffers (s : Session) (f : s3eCameraFrameData) (env : FrameEnv) :
    (reallocate s f env).g_pCameraTexelsRGB565 = env.texelsRealloc.map (newTexels s f) ∧
    (reallocate s f env).g_pCameraPixelsGrayscale = env.grayscaleRealloc.map (newGray s f) := by
  constructor
  · cases h : env.texelsRealloc <;> simp [reallocate, s3eRealloc, newTexels, h]
  · cases h : env.grayscaleRealloc <;> simp [reallocate, s3eRealloc, newGray, h]

theorem createTextureAndImage_fields (s : Session) (env : FrameEnv) (texels gray : Buffer) :
    (createTextureAndImage s env texels gray).g_CameraState = s.g_CameraState ∧
    (createTextureAndImage s env texels gray).g_CameraSquareDimension
      = s.g_CameraSquareDimension ∧
    (createTextureAndImage s env texels gray).g_CameraCropXStart = s.g_CameraCropXStart ∧
    (createTextureAndImage s env texels gray).g_CameraCropYStart = s.g_CameraCropYStart ∧
    (createTextureAndImage s env texels gray).g_pCameraTexelsRGB565 = s.g_pCameraTexelsRGB565 ∧
    (createTextureAndImage s env texels gray).g_pCameraPixelsGrayscale
      = s.g_pCameraPixelsGrayscale ∧
    (createTextureAndImage s env texels gray).qrCodeFound = s.qrCodeFound ∧
    (createTextureAndImage s env texels gray).g_pZBarScanner = s.g_pZBarScanner ∧
    (createTextureAndImage s env texels gray).g_pCameraTextureRGB565.isSome = true := by
  unfold createTextureAndImage
  simp only []
  split <;> simp

theorem processFrame_geometry (s : Session) (f : s3eCameraFrameData) (env : FrameEnv)
    (fx : List Effect) (a b : Nat)
    (hgeo : s.g_pCameraTexelsRGB565 = none ∨ u32 (f.m_Width * f.m_Height) ≠ s.g_FrameResolution ∨
      f.m_Rotation ≠ s.g_FrameRotation)
    (hpt : f.m_PixelType = S3E_CAMERA_PIXEL_TYPE_RGB565_CONVERTED)
    (ha : env.texelsRealloc = some a) (hb : env.grayscaleRealloc = some b) :
    processFrame s f env fx
      = copyFrame (createTextureAndImage (reallocate s f env) env (newTexels s f a)
          (newGray s f b)) f fx := by
  have h1 := (reallocate_buffers s f env).1
  have h2 := (reallocate_buffers s f env).2
  rw [ha] at h1
  rw [hb] at h2
  simp only [Option.map_some'] at h1 h2
  unfold processFrame
  simp only [hgeo, hpt, if_true, ne_eq, not_true_eq_false, if_false, h1, h2]

theorem processFrame_steady (s : Session) (f : s3eCameraFrameData) (env : FrameEnv)
    (fx : List Effect)
    (hgeo : ¬ (s.g_pCameraTexelsRGB565 = none ∨
      u32 (f.m_Width * f.m_Height) ≠ s.g_FrameResolution ∨ f.m_Rotation ≠ s.g_FrameRotation)) :
    processFrame s f env fx = copyFrame s f fx := by
  unfold processFrame
  simp only [hgeo, if_false]

theorem onFrame_loading (s : Session) (f : s3eCameraFrameData) (env : FrameEnv)
    (h : s.g_CameraState = CAMERA_LOADING) :
    onFrame s f env
      = processFrame (firstFrameReceived s) f env [Effect.s3eTimerSetTimer g_QrScanTimeout] := by
  simp [onFrame, CameraUpdateCallback, h]

theorem onFrame_streaming (s : Session) (f : s3eCameraFrameData) (env : FrameEnv)
    (h : s.g_CameraState = CAMERA_STREAMING) :
    onFrame s f env = processFrame s f env [] := by
  simp [onFrame, CameraUpdateCallback, h]

theorem onFrame_stopped (s : Session) (f : s3eCameraFrameData) (env : FrameEnv)
    (h1 : s.g_CameraState ≠ CAMERA_LOADING) (h2 : s.g_CameraState ≠ CAMERA_STREAMING) :
    onFrame s f env = (s, []) := by
  simp [onFrame, CameraUpdateCallback, h1, h2]

theorem storePixels_cropRotate (W H S cX cY : Nat) (rot : s3eCameraFrameRotation)
    (data dest : List Nat) (hfit : W * H < 2147483648) (hX : cX + S ≤ W) (hY : cY + S ≤ H)
    (hrot : rot ≠ S3E_CAMERA_FRAME_ROT180) (hdata : data.length = W * H)
    (hdest : dest.length = S * S) (r c : Nat) (hr : r < S) (hc : c < S) :
    srcOffset W S cX cY rot r c < data.length ∧
      (storePixels data (cropRotate W S cX cY rot) dest)[r * S + c]?
        = data[srcOffset W S cX cY rot r c]? := by
  have hlt := srcOffset_lt W H S cX cY rot hX hY hrot r c hr hc
  obtain ⟨hlen, hlook⟩ := cropRotate_lookup W H S cX cY rot hfit hX hY
  refine ⟨by omega, ?_⟩
  rw [storePixels_grid data _ dest S (fun r c => ((srcOffset W S cX cY rot r c : Nat) : Int))
    hlen (by omega) hlook r c hr hc]
  exact readPixel_natCast data _ (by omega)

theorem lumaLoop_length (src : List Nat) (k i : Nat) (dest : List Nat) :
    (lumaLoop src k i dest).length = dest.length := by
  induction k generalizing i dest with
  | zero => rfl
  | succ k ih => rw [lumaLoop, ih, List.length_set]

theorem lumaLoop_lookup (src : List Nat) (k i : Nat) (dest : List Nat)
    (hlen : i + k ≤ dest.length) (j : Nat) :
    (i ≤ j → j < i + k → (lumaLoop src k i dest)[j]? = some (toLuma (src.getD j 0))) ∧
      (j < i → (lumaLoop src k i dest)[j]? = dest[j]?) := by
  induction k generalizing i dest with
  | zero =>
    constructor
    · intro h1 h2; omega
    · intro _; rfl
  | succ k ih =>
    have h := ih (i + 1) (dest.set i (toLuma (src.getD i 0)))
      (by rw [List.length_set]; omega)
    rw [lumaLoop]
    constructor
    · intro h1 h2
      by_cases hj : j = i
      · subst hj
        rw [h.2 (by omega), List.getElem?_set_self (by omega)]
      · exact h.1 (by omega) (by omega)
    · intro h1
      rw [h.2 (by omega), List.getElem?_set_ne (by omega)]

/-! ## The detection flag -/

theorem processFrame_found (s : Session) (f : s3eCameraFrameData) (env : FrameEnv)
    (fx : List Effect) (h : s.qrCodeFound = true) :
    (processFrame s f env fx).1.qrCodeFound = true ∧
    ∀ data, (processFrame s { f with m_Data := data } env fx).1.g_pCameraTexelsRGB565
      = (processFrame s f env fx).1.g_pCameraTexelsRGB565 := by
  by_cases hgeo : s.g_pCameraTexelsRGB565 = none ∨
      u32 (f.m_Width * f.m_Height) ≠ s.g_FrameResolution ∨ f.m_Rotation ≠ s.g_FrameRotation
  · by_cases hpt : f.m_PixelType = S3E_CAMERA_PIXEL_TYPE_RGB565_CONVERTED
    · cases ha : env.texelsRealloc with
      | none =>
        have e : ∀ g : s3eCameraFrameData, g.m_Width = f.m_Width → g.m_Height = f.m_Height →
            g.m_Rotation = f.m_Rotation → g.m_PixelType = f.m_PixelType →
            processFrame s g env fx = (StopCamera (reallocate s g env),
              fx ++ [Effect.s3eDebugErrorShow "Not enough memory for camera."]) := by
          intro g h1 h2 h3 h4
          unfold processFrame
          simp [h1, h2, h3, h4, hgeo, hpt, (reallocate_buffers s g env).1, ha]
        constructor
        · rw [e f rfl rfl rfl rfl]; simp [StopCamera, reallocate_fields, h]
        · intro data
          rw [e f rfl rfl rfl rfl, e { f with m_Data := data } rfl rfl rfl rfl]
          simp [StopCamera]
      | some a =>
        cases hb : env.grayscaleRealloc with
        | none =>
          have e : ∀ g : s3eCameraFrameData, g.m_Width = f.m_Width → g.m_Height = f.m_Height →
              g.m_Rotation = f.m_Rotation → g.m_PixelType = f.m_PixelType →
              processFrame s g env fx = (StopCamera (reallocate s g env),
                fx ++ [Effect.s3eDebugErrorShow "Not enough memory for camera."]) := by
            intro g h1 h2 h3 h4
            unfold processFrame
            simp [h1, h2, h3, h4, hgeo, hpt, (reallocate_buffers s g env).1,
              (reallocate_buffers s g env).2, ha, hb]
          constructor
          · rw [e f rfl rfl rfl rfl]; simp [StopCamera, reallocate_fields, h]
          · intro data
            rw [e f rfl rfl rfl rfl, e { f with m_Data := data } rfl rfl rfl rfl]
            simp [StopCamera]
        | some b =>
          constructor
          · rw [processFrame_geometry s f env fx a b hgeo hpt ha hb]
            simp [copyFrame_fields, createTextureAndImage_fields, reallocate_fields, h]
          · intro data
            rw [processFrame_geometry s f env fx a b hgeo hpt ha hb,
              processFrame_geometry s { f with m_Data := data } env fx a b hgeo hpt ha hb,
              copyFrame_found _ _ _ (by simp [createTextureAndImage_fields, reallocate_fields, h]),
              copyFrame_found _ _ _ (by simp [createTextureAndImage_fields, reallocate_fields, h])]
            rfl
    · have e : ∀ g : s3eCameraFrameData, g.m_Width = f.m_Width → g.m_Height = f.m_Height →
          g.m_Rotation = f.m_Rotation → g.m_PixelType = f.m_PixelType →
          processFrame s g env fx = ({ StopCamera s with g_CameraState := CAMERA_UNAVAILABLE },
            fx ++ [Effect.s3eDebugErrorShow "Camera pixel format error."]) := by
        intro g h1 h2 h3 h4
        unfold processFrame
        simp [h1, h2, h3, h4, hgeo, hpt]
      constructor
      · rw [e f rfl rfl rfl rfl]; simp [StopCamera, h]
      · intro data
        rw [e f rfl rfl rfl rfl, e { f with m_Data := data } rfl rfl rfl rfl]
  · constructor
    · rw [processFrame_steady s f env fx hgeo]; simp [copyFrame_fields, h]
    · intro data
      rw [processFrame_steady s f env fx hgeo,
        processFrame_steady s { f with m_Data := data } env fx hgeo,
        copyFrame_found _ _ _ h, copyFrame_found _ _ _ h]

theorem firstFrameReceived_fields (s : Session) :
    (firstFrameReceived s).qrCodeFound = s.qrCodeFound ∧
    (firstFrameReceived s).g_pCameraTexelsRGB565 = s.g_pCameraTexelsRGB565 ∧
    (firstFrameReceived s).g_FrameResolution = s.g_FrameResolution ∧
    (firstFrameReceived s).g_FrameRotation = s.g_FrameRotation ∧
    (firstFrameReceived s).g_CameraState = CAMERA_STREAMING := by
  simp [firstFrameReceived]

theorem onFrame_found (s : Session) (f : s3eCameraFrameData) (env : FrameEnv)
    (h : s.qrCodeFound = true) :
    (onFrame s f env).1.qrCodeFound = true ∧
    ∀ data, (onFrame s { f with m_Data := data } env).1.g_pCameraTexelsRGB565
      = (onFrame s f env).1.g_pCameraTexelsRGB565 := by
  by_cases h1 : s.g_CameraState = CAMERA_LOADING
  · simp only [onFrame_loading _ _ _ h1]
    exact processFrame_found _ f env _ (by simp [firstFrameReceived_fields, h])
  · by_cases h2 : s.g_CameraState = CAMERA_STREAMING
    · simp only [onFrame_streaming _ _ _ h2]
      exact processFrame_found _ f env _ h
    · simp only [onFrame_stopped _ _ _ h1 h2]
      exact ⟨h, fun _ => trivial⟩

theorem onFrame_found_steady (s : Session) (f : s3eCameraFrameData) (env : FrameEnv)
    (h : s.qrCodeFound = true)
    (hgeo : ¬ (s.g_pCameraTexelsRGB565 = none ∨
      u32 (f.m_Width * f.m_Height) ≠ s.g_FrameResolution ∨ f.m_Rotation ≠ s.g_FrameRotation)) :
    (onFrame s f env).1.g_pCameraTexelsRGB565 = s.g_pCameraTexelsRGB565 := by
  by_cases h1 : s.g_CameraState = CAMERA_LOADING
  · rw [onFrame_loading _ _ _ h1, processFrame_steady (firstFrameReceived s) f env _ hgeo,
      copyFrame_found _ _ _ (by simp [firstFrameReceived_fields, h])]
    simp [firstFrameReceived_fields]
  · by_cases h2 : s.g_CameraState = CAMERA_STREAMING
    · rw [onFrame_streaming _ _ _ h2, processFrame_steady s f env _ hgeo,
        copyFrame_found _ _ _ h]
    · rw [onFrame_stopped _ _ _ h1 h2]

theorem StartCamera_flag (s : Session) (env : StartEnv) :
    (StartCamera s env).1.qrCodeFound = s.qrCodeFound := by
  unfold StartCamera
  simp only []
  repeat' split
  all_goals simp [StopCamera]

theorem requestRescan_fields (s : Session) :
    (requestRescan s).qrCodeFound = false ∧
    (requestRescan s).g_CameraState = s.g_CameraState ∧
    (requestRescan s).g_pCameraTexelsRGB565 = s.g_pCameraTexelsRGB565 ∧
    (requestRescan s).g_pCameraPixelsGrayscale = s.g_pCameraPixelsGrayscale ∧
    (requestRescan s).g_pCameraTextureRGB565 = s.g_pCameraTextureRGB565 ∧
    (requestRescan s).g_pZBarImage = s.g_pZBarImage ∧
    (requestRescan s).g_pZBarScanner = s.g_pZBarScanner ∧
    (requestRescan s).g_FrameResolution = s.g_FrameResolution ∧
    (requestRescan s).g_FrameRotation = s.g_FrameRotation ∧
    (requestRescan s).g_CameraSquareDimension = s.g_CameraSquareDimension ∧
    (requestRescan s).g_CameraCropXStart = s.g_CameraCropXStart ∧
    (requestRescan s).g_CameraCropYStart = s.g_CameraCropYStart := by
  simp [requestRescan, FilterEvent]

theorem copyFrame_copies (s : Session) (f : s3eCameraFrameData) (fx : List Effect) (b : Buffer)
    (hflag : s.qrCodeFound = false) (htex : s.g_pCameraTextureRGB565.isSome = true)
    (hbuf : s.g_pCameraTexelsRGB565 = some b) :
    (copyFrame s f fx).1.g_pCameraTexelsRGB565
      = some { b with
          cells := storePixels f.m_Data
            (cropRotate f.m_Width s.g_CameraSquareDimension s.g_CameraCropXStart
              s.g_CameraCropYStart f.m_Rotation) b.cells } := by
  unfold copyFrame
  simp [hflag, htex, hbuf]

/-! ## Effects and error paths of `processFrame` -/

theorem copyFrame_effects (s : Session) (f : s3eCameraFrameData) (fx : List Effect) :
    (copyFrame s f fx).2
      = if s.g_pCameraTextureRGB565.isSome = true then fx ++ [Effect.Upload] else fx := by
  unfold copyFrame
  simp only []
  split <;> rfl

theorem processFrame_badPixel (s : Session) (f : s3eCameraFrameData) (env : FrameEnv)
    (fx : List Effect)
    (hgeo : s.g_pCameraTexelsRGB565 = none ∨ u32 (f.m_Width * f.m_Height) ≠ s.g_FrameResolution ∨
      f.m_Rotation ≠ s.g_FrameRotation)
    (hpt : f.m_PixelType ≠ S3E_CAMERA_PIXEL_TYPE_RGB565_CONVERTED) :
    processFrame s f env fx
      = ({ StopCamera s with g_CameraState := CAMERA_UNAVAILABLE },
          fx ++ [Effect.s3eDebugErrorShow "Camera pixel format error."]) := by
  unfold processFrame
  simp only [hgeo, hpt, if_true, ne_eq, not_false_eq_true]

theorem processFrame_allocFail (s : Session) (f : s3eCameraFrameData) (env : FrameEnv)
    (fx : List Effect)
    (hgeo : s.g_pCameraTexelsRGB565 = none ∨ u32 (f.m_Width * f.m_Height) ≠ s.g_FrameResolution ∨
      f.m_Rotation ≠ s.g_FrameRotation)
    (hpt : f.m_PixelType = S3E_CAMERA_PIXEL_TYPE_RGB565_CONVERTED)
    (hfail : env.texelsRealloc = none ∨ env.grayscaleRealloc = none) :
    processFrame s f env fx
      = (StopCamera (reallocate s f env),
          fx ++ [Effect.s3eDebugErrorShow "Not enough memory for camera."]) := by
  have h1 := (reallocate_buffers s f env).1
  have h2 := (reallocate_buffers s f env).2
  unfold processFrame
  simp only [hgeo, hpt, if_true, ne_eq, not_true_eq_false, if_false]
  rcases hfail with h | h
  · rw [h] at h1
    simp only [Option.map_none'] at h1
    rw [h1]
  · rw [h] at h2
    simp only [Option.map_none'] at h2
    rw [h2]
    cases (reallocate s f env).g_pCameraTexelsRGB565 <;> rfl

theorem timerArms_append (a b : List Effect) : timerArms (a ++ b) = timerArms a + timerArms b := by
  simp [timerArms, List.countP_append]

theorem processFrame_ok (s : Session) (f : s3eCameraFrameData) (env : FrameEnv)
    (fx : List Effect) (hpt : f.m_PixelType = S3E_CAMERA_PIXEL_TYPE_RGB565_CONVERTED)
    (ha : env.texelsRealloc.isSome = true) (hb : env.grayscaleRealloc.isSome = true) :
    (processFrame s f env fx).1.g_CameraState = s.g_CameraState ∧
    timerArms (processFrame s f env fx).2 = timerArms fx := by
  obtain ⟨a, ha⟩ := Option.isSome_iff_exists.mp ha
  obtain ⟨b, hb⟩ := Option.isSome_iff_exists.mp hb
  by_cases hgeo : s.g_pCameraTexelsRGB565 = none ∨
      u32 (f.m_Width * f.m_Height) ≠ s.g_FrameResolution ∨ f.m_Rotation ≠ s.g_FrameRotation
  · rw [processFrame_geometry s f env fx a b hgeo hpt ha hb, copyFrame_effects]
    constructor
    · simp [copyFrame_fields, createTextureAndImage_fields, reallocate_fields]
    · split <;> simp [timerArms_append, timerArms, isSetTimer]
  · rw [processFrame_steady s f env fx hgeo, copyFrame_effects]
    constructor
    · simp [copyFrame_fields]
    · split <;> simp [timerArms_append, timerArms, isSetTimer]

theorem onFrames_streaming (s : Session) (frames : List (s3eCameraFrameData × FrameEnv))
    (hst : s.g_CameraState = CAMERA_STREAMING)
    (hok : ∀ fe ∈ frames, fe.1.m_PixelType = S3E_CAMERA_PIXEL_TYPE_RGB565_CONVERTED ∧
      fe.2.texelsRealloc.isSome = true ∧ fe.2.grayscaleRealloc.isSome = true) :
    (onFrames s frames).1.g_CameraState = CAMERA_STREAMING ∧
    timerArms (onFrames s frames).2 = 0 := by
  induction frames generalizing s with
  | nil => exact ⟨hst, rfl⟩
  | cons fe rest ih =>
    obtain ⟨hpt, ha, hb⟩ := hok fe (List.mem_cons_self _ _)
    have h1 := processFrame_ok s fe.1 fe.2 [] hpt ha hb
    rw [← onFrame_streaming s fe.1 fe.2 hst] at h1
    have h2 := ih (onFrame s fe.1 fe.2).1 (by rw [h1.1, hst])
      (fun x hx => hok x (List.mem_cons_of_mem _ hx))
    simp only [onFrames, timerArms_append]
    refine ⟨h2.1, ?_⟩
    rw [h1.2, h2.2]
    rfl

/-! ## The scan pass -/

theorem onScanTick_run (s : Session) (env : ScanEnv)
    (hflag : s.qrCodeFound = false) (hst : s.g_CameraState = CAMERA_STREAMING)
    (himg : s.g_pZBarImage.isSome = true) :
    onScanTick s env
      = (if env.zbar_scan_image ≠ 0 then env.symbols.foldl symbolStep (lumaConverted s)
          else lumaConverted s,
         [Effect.zbar_scan_image, Effect.s3eTimerSetTimer g_QrScanTimeout]) := by
  simp [onScanTick, ScanQrCodeCallback, hflag, hst, himg, lumaConverted]

theorem onScanTick_skip (s : Session) (env : ScanEnv)
    (h : ¬ (s.qrCodeFound = false ∧ s.g_CameraState = CAMERA_STREAMING ∧
      s.g_pZBarImage.isSome = true)) :
    onScanTick s env = (s, [Effect.s3eTimerSetTimer g_QrScanTimeout]) := by
  unfold onScanTick ScanQrCodeCallback
  rw [if_neg h]

theorem symbolStep_found (s : Session) (sym : zbar_symbol_t)
    (h : sym.get_type = ZBAR_QRCODE) :
    symbolStep s sym
      = { s with
          qrCodeFound := true
          statusCaption := "QR Code found: " ++ sym.get_data
          scanButtonEnabled := true } := by
  simp [symbolStep, h]

theorem symbolLoop_none (s : Session) (symbols : List zbar_symbol_t)
    (h : ∀ sym ∈ symbols, sym.get_type ≠ ZBAR_QRCODE) :
    symbols.foldl symbolStep s = s := by
  induction symbols generalizing s with
  | nil => rfl
  | cons sym rest ih =>
    have h1 : symbolStep s sym = s := by
      simp [symbolStep, h sym (List.mem_cons_self _ _)]
    rw [List.foldl_cons, h1]
    exact ih s (fun x hx => h x (List.mem_cons_of_mem _ hx))

theorem symbolLoop_found (s : Session) (symbols : List zbar_symbol_t)
    (h : ∃ sym ∈ symbols, sym.get_type = ZBAR_QRCODE) :
    ∃ sym ∈ symbols, sym.get_type = ZBAR_QRCODE ∧
      symbols.foldl symbolStep s
        = { s with
            qrCodeFound := true
            statusCaption := "QR Code found: " ++ sym.get_data
            scanButtonEnabled := true } := by
  induction symbols generalizing s with
  | nil => simp at h
  | cons x rest ih =>
    rw [List.foldl_cons]
    by_cases hr : ∃ sym ∈ rest, sym.get_type = ZBAR_QRCODE
    · obtain ⟨sym, hm, hq, he⟩ := ih (symbolStep s x) hr
      refine ⟨sym, List.mem_cons_of_mem _ hm, hq, ?_⟩
      rw [he]
      unfold symbolStep
      split <;> rfl
    · have hx : x.get_type = ZBAR_QRCODE := by
        obtain ⟨sym, hm, hq⟩ := h
        rcases List.mem_cons.mp hm with hm | hm
        · rw [← hm]; exact hq
        · exact absurd ⟨sym, hm, hq⟩ hr
      refine ⟨x, List.mem_cons_self _ _, hx, ?_⟩
      rw [symbolLoop_none _ _ (fun sym hm hq => hr ⟨sym, hm, hq⟩), symbolStep_found s x hx]

/-! ## The recognition image stays bound to the buffers -/

theorem imageBound_of_none (s : Session) (h : s.g_pZBarImage = none) : imageBound s := by
  intro img himg
  rw [h] at himg
  exact Option.noConfusion himg

theorem imageBound_congr (s t : Session)
    (himg : t.g_pZBarImage = s.g_pZBarImage) (hscan : t.g_pZBarScanner = s.g_pZBarScanner)
    (hdim : t.g_CameraSquareDimension = s.g_CameraSquareDimension)
    (htex : ∀ b, s.g_pCameraTexelsRGB565 = some b →
      ∃ c, t.g_pCameraTexelsRGB565 = some c ∧ c.size = b.size ∧ c.cells.length = b.cells.length)
    (hgray : ∀ b, s.g_pCameraPixelsGrayscale = some b →
      ∃ c, t.g_pCameraPixelsGrayscale = some c ∧ c.addr = b.addr ∧ c.size = b.size ∧
        c.cells.length = b.cells.length)
    (h : imageBound s) : imageBound t := by
  intro img hi
  rw [himg] at hi
  obtain ⟨h1, texels, gray, h2, h3, h4, h5, h6, h7, h8, h9, h10, h11⟩ := h img hi
  obtain ⟨c, hc1, hc2, hc3⟩ := htex texels h2
  obtain ⟨d, hd1, hd2, hd3, hd4⟩ := hgray gray h3
  refine ⟨by rw [hscan, h1], c, d, hc1, hd1, ?_⟩
  rw [hdim, hc2, hc3, hd2, hd3, hd4]
  exact ⟨h4, h5, h6, h7, h8, h9, h10, h11⟩

theorem imageBound_same_buffers (s t : Session)
    (himg : t.g_pZBarImage = s.g_pZBarImage) (hscan : t.g_pZBarScanner = s.g_pZBarScanner)
    (hdim : t.g_CameraSquareDimension = s.g_CameraSquareDimension)
    (htex : t.g_pCameraTexelsRGB565 = s.g_pCameraTexelsRGB565)
    (hgray : t.g_pCameraPixelsGrayscale = s.g_pCameraPixelsGrayscale)
    (h : imageBound s) : imageBound t :=
  imageBound_congr s t himg hscan hdim
    (fun b hb => ⟨b, by rw [htex, hb], rfl, rfl⟩)
    (fun b hb => ⟨b, by rw [hgray, hb], rfl, rfl, rfl⟩) h

theorem imageBound_StopCamera (s : Session) : imageBound (StopCamera s) :=
  imageBound_of_none _ rfl

theorem imageBound_StartCamera (s : Session) (env : StartEnv) (h : imageBound s) :
    imageBound (StartCamera s env).1 := by
  unfold StartCamera
  simp only []
  split
  · exact imageBound_same_buffers s _ rfl rfl rfl rfl rfl h
  · split
    · exact imageBound_same_buffers s _ rfl rfl rfl rfl rfl h
    · split
      · exact imageBound_of_none _ rfl
      · split
        · exact imageBound_of_none _ rfl
        · split
          · exact imageBound_of_none _ rfl
          · rename_i hsc
            intro img hi
            obtain ⟨-, rest⟩ := h img hi
            refine ⟨?_, rest⟩
            simpa using hsc

theorem imageBound_copyFrame (s : Session) (f : s3eCameraFrameData) (fx : List Effect)
    (h : imageBound s) : imageBound (copyFrame s f fx).1 := by
  refine imageBound_congr s _ (copyFrame_fields s f fx).2.2.2.2.2.2.2.2.1
    (copyFrame_fields s f fx).2.2.2.2.2.2.2.1 (copyFrame_fields s f fx).2.1 ?_ ?_ h
  · intro b hb
    unfold copyFrame
    simp only []
    split
    · split
      · refine ⟨{ b with
            cells := storePixels f.m_Data
              (cropRotate f.m_Width s.g_CameraSquareDimension s.g_CameraCropXStart
                s.g_CameraCropYStart f.m_Rotation) b.cells }, ?_, rfl, storePixels_length _ _ _⟩
        simp only [hb, Option.map_some']
      · exact ⟨b, hb, rfl, rfl⟩
    · exact ⟨b, hb, rfl, rfl⟩
  · intro b hb
    exact ⟨b, by rw [(copyFrame_fields s f fx).2.2.2.2.2.2.1, hb], rfl, rfl, rfl⟩

theorem resizeCells_length (old : List Nat) (n : Nat) : (resizeCells old n).length = n := by
  simp only [resizeCells, List.length_append, List.length_take, List.length_replicate]
  omega

theorem createTextureAndImage_image (s : Session) (env : FrameEnv) (texels gray : Buffer) :
    (createTextureAndImage s env texels gray).g_pZBarImage
      = if s.g_pZBarScanner = true then
          (if env.zbar_image_create = true then
            some { width := s.g_CameraSquareDimension
                   height := s.g_CameraSquareDimension
                   data := gray.addr
                   dataLength := u32 (s.g_CameraSquareDimension * s.g_CameraSquareDimension) }
          else none)
        else s.g_pZBarImage := by
  unfold createTextureAndImage
  simp only []
  split <;> rfl

theorem imageBound_geometry (s : Session) (f : s3eCameraFrameData) (env : FrameEnv) (a b : Nat)
    (hfit : f.m_Width * f.m_Height < 2147483648)
    (ha : env.texelsRealloc = some a) (hb : env.grayscaleRealloc = some b)
    (h : imageBound s) :
    imageBound (createTextureAndImage (reallocate s f env) env (newTexels s f a)
      (newGray s f b)) := by
  obtain ⟨hSW, hSH, -, -⟩ := cropWindow_inside f.m_Width f.m_Height
  have hsq : (cropWindow f.m_Width f.m_Height).squareDim *
      (cropWindow f.m_Width f.m_Height).squareDim ≤ f.m_Width * f.m_Height :=
    Nat.mul_le_mul hSW hSH
  have hdim := (reallocate_fields s f env).2.1
  have hscan := (reallocate_fields s f env).2.2.2.2.2.2.1
  have himg0 := (reallocate_fields s f env).2.2.2.2.2.2.2.1
  have htex := (reallocate_buffers s f env).1
  have hgray := (reallocate_buffers s f env).2
  rw [ha] at htex
  rw [hb] at hgray
  simp only [Option.map_some'] at htex hgray
  obtain ⟨-, hd, -, -, ht, hg, -, hs, -⟩ :=
    createTextureAndImage_fields (reallocate s f env) env (newTexels s f a) (newGray s f b)
  have hi := createTextureAndImage_image (reallocate s f env) env (newTexels s f a)
    (newGray s f b)
  have e1 : u32 ((cropWindow f.m_Width f.m_Height).squareDim *
      (cropWindow f.m_Width f.m_Height).squareDim)
      = (cropWindow f.m_Width f.m_Height).squareDim *
        (cropWindow f.m_Width f.m_Height).squareDim := u32_of_lt (by omega)
  have e2 : u32 ((cropWindow f.m_Width f.m_Height).squareDim *
      (cropWindow f.m_Width f.m_Height).squareDim * 2)
      = 2 * (cropWindow f.m_Width f.m_Height).squareDim *
        (cropWindow f.m_Width f.m_Height).squareDim := by
    rw [u32_of_lt (by omega)]; ring
  intro img himg
  rw [hi] at himg
  by_cases hsc : (reallocate s f env).g_pZBarScanner = true
  · rw [if_pos hsc] at himg
    by_cases hcr : env.zbar_image_create = true
    · rw [if_pos hcr] at himg
      have himg2 := (Option.some.inj himg).symm
      refine ⟨by rw [hs, hsc], newTexels s f a, newGray s f b, by rw [ht, htex],
        by rw [hg, hgray], ?_⟩
      rw [hd, himg2, hdim]
      simp only [newGray, newTexels, resizeCells_length, hdim, e1, e2, Nat.div_one, true_and]
      rw [Nat.mul_assoc, Nat.mul_div_cancel_left _ (by decide : 0 < 2)]
    · rw [if_neg hcr] at himg
      exact Option.noConfusion himg
  · rw [if_neg hsc, himg0] at himg
    rw [hscan] at hsc
    exact absurd (h img himg).1 hsc

theorem imageBound_processFrame (s : Session) (f : s3eCameraFrameData) (env : FrameEnv)
    (fx : List Effect) (hfit : f.m_Width * f.m_Height < 2147483648) (h : imageBound s) :
    imageBound (processFrame s f env fx).1 := by
  by_cases hgeo : s.g_pCameraTexelsRGB565 = none ∨
      u32 (f.m_Width * f.m_Height) ≠ s.g_FrameResolution ∨ f.m_Rotation ≠ s.g_FrameRotation
  · by_cases hpt : f.m_PixelType = S3E_CAMERA_PIXEL_TYPE_RGB565_CONVERTED
    · cases ha : env.texelsRealloc with
      | none =>
        rw [processFrame_allocFail s f env fx hgeo hpt (Or.inl ha)]
        exact imageBound_StopCamera _
      | some a =>
        cases hb : env.grayscaleRealloc with
        | none =>
          rw [processFrame_allocFail s f env fx hgeo hpt (Or.inr hb)]
          exact imageBound_StopCamera _
        | some b =>
          rw [processFrame_geometry s f env fx a b hgeo hpt ha hb]
          exact imageBound_copyFrame _ f fx (imageBound_geometry s f env a b hfit ha hb h)
    · rw [processFrame_badPixel s f env fx hgeo hpt]
      exact imageBound_of_none _ rfl
  · rw [processFrame_steady s f env fx hgeo]
    exact imageBound_copyFrame s f fx h

theorem imageBound_onFrame (s : Session) (f : s3eCameraFrameData) (env : FrameEnv)
    (hfit : f.m_Width * f.m_Height < 2147483648) (h : imageBound s) :
    imageBound (onFrame s f env).1 := by
  by_cases h1 : s.g_CameraState = CAMERA_LOADING
  · rw [onFrame_loading s f env h1]
    exact imageBound_processFrame _ f env _ hfit
      (imageBound_same_buffers s (firstFrameReceived s) rfl rfl rfl rfl rfl h)
  · by_cases h2 : s.g_CameraState = CAMERA_STREAMING
    · rw [onFrame_streaming s f env h2]
      exact imageBound_processFrame s f env _ hfit h
    · rw [onFrame_stopped s f env h1 h2]
      exact h

theorem imageBound_symbolLoop (s : Session) (symbols : List zbar_symbol_t)
    (h : imageBound s) : imageBound (symbols.foldl symbolStep s) := by
  induction symbols generalizing s with
  | nil => exact h
  | cons x rest ih =>
    rw [List.foldl_cons]
    apply ih
    unfold symbolStep
    split
    · exact imageBound_same_buffers s _ rfl rfl rfl rfl rfl h
    · exact h

theorem imageBound_lumaConverted (s : Session) (h : imageBound s) :
    imageBound (lumaConverted s) := by
  refine imageBound_congr s _ rfl rfl rfl (fun b hb => ⟨b, hb, rfl, rfl⟩) ?_ h
  intro b hb
  refine ⟨{ b with
    cells := lumaLoop (match s.g_pCameraTexelsRGB565 with
      | none => []
      | some b => b.cells)
      (u32 (s.g_CameraSquareDimension * s.g_CameraSquareDimension)) 0 b.cells }, ?_, rfl, rfl,
    lumaLoop_length _ _ _ _⟩
  simp only [lumaConverted, hb, Option.map_some']

theorem imageBound_onScanTick (s : Session) (env : ScanEnv) (h : imageBound s) :
    imageBound (onScanTick s env).1 := by
  by_cases hc : s.qrCodeFound = false ∧ s.g_CameraState = CAMERA_STREAMING ∧
      s.g_pZBarImage.isSome = true
  · rw [onScanTick_run s env hc.1 hc.2.1 hc.2.2]
    simp only []
    split
    · exact imageBound_symbolLoop _ _ (imageBound_lumaConverted s h)
    · exact imageBound_lumaConverted s h
  · rw [onScanTick_skip s env hc]
    exact h

theorem imageBound_step (s : Session) (op : Op) (hfit : opFits op = true) (h : imageBound s) :
    imageBound (step s op) := by
  cases op with
  | start env => exact imageBound_StartCamera s env h
  | stop => exact imageBound_StopCamera s
  | onStreamStopped => exact imageBound_StopCamera s
  | onFrame f env =>
    exact imageBound_onFrame s f env (by simpa [opFits] using hfit) h
  | onScanTick env => exact imageBound_onScanTick s env h
  | requestRescan =>
    exact imageBound_same_buffers s (requestRescan s) rfl rfl rfl rfl rfl h

theorem imageBound_run (s : Session) (ops : List Op) (hfit : ∀ op ∈ ops, opFits op = true)
    (h : imageBound s) : imageBound (run s ops) := by
  induction ops generalizing s with
  | nil => exact h
  | cons op rest ih =>
    exact ih (step s op) (fun x hx => hfit x (List.mem_cons_of_mem _ hx))
      (imageBound_step s op (hfit op (List.mem_cons_self _ _)) h)

/-! ## Writes into the status text buffer -/

theorem qrStringWrites_inside (pQrData : String) :
    (∀ i ∈ qrStringWrites pQrData, i < qrStringSize) ↔ pQrData.utf8ByteSize ≤ 496 := by
  have hp : "QR Code found: ".utf8ByteSize = 15 := by decide
  simp only [qrStringWrites, strcpyWrites, strcatWrites, qrStringSize, hp, List.mem_append,
    List.mem_range, List.mem_map]
  constructor
  · intro h
    have := h (15 + pQrData.utf8ByteSize) (Or.inr ⟨pQrData.utf8ByteSize, by omega, rfl⟩)
    omega
  · intro h i hi
    rcases hi with hi | ⟨j, hj, rfl⟩ <;> omega

theorem utf8ByteSize_replicate_A (n : Nat) :
    (String.mk (List.replicate n 'A')).utf8ByteSize = n := by
  have hgo : ∀ m, String.utf8ByteSize.go (List.replicate m 'A') = m := by
    intro m
    induction m with
    | zero => rfl
    | succ m ih =>
      rw [List.replicate_succ, String.utf8ByteSize.go, ih]
      rfl
  exact hgo n

theorem longPayload_size : longPayload.utf8ByteSize = 497 :=
  utf8ByteSize_replicate_A 497

/-! ## The effects of `processFrame` -/

theorem processFrame_effects (s : Session) (f : s3eCameraFrameData) (env : FrameEnv)
    (fx : List Effect) :
    (processFrame s f env fx).2
      = if s.g_pCameraTexelsRGB565 = none ∨ u32 (f.m_Width * f.m_Height) ≠ s.g_FrameResolution ∨
            f.m_Rotation ≠ s.g_FrameRotation then
          (if f.m_PixelType ≠ S3E_CAMERA_PIXEL_TYPE_RGB565_CONVERTED then
            fx ++ [Effect.s3eDebugErrorShow "Camera pixel format error."]
          else if env.texelsRealloc.isSome = true ∧ env.grayscaleRealloc.isSome = true then
            fx ++ [Effect.Upload]
          else fx ++ [Effect.s3eDebugErrorShow "Not enough memory for camera."])
        else if s.g_pCameraTextureRGB565.isSome = true then fx ++ [Effect.Upload] else fx := by
  by_cases hgeo : s.g_pCameraTexelsRGB565 = none ∨
      u32 (f.m_Width * f.m_Height) ≠ s.g_FrameResolution ∨ f.m_Rotation ≠ s.g_FrameRotation
  · rw [if_pos hgeo]
    by_cases hpt : f.m_PixelType = S3E_CAMERA_PIXEL_TYPE_RGB565_CONVERTED
    · rw [if_neg (not_not.mpr hpt)]
      cases ha : env.texelsRealloc with
      | none =>
        rw [processFrame_allocFail s f env fx hgeo hpt (Or.inl ha)]
        simp
      | some a =>
        cases hb : env.grayscaleRealloc with
        | none =>
          rw [processFrame_allocFail s f env fx hgeo hpt (Or.inr hb)]
          simp
        | some b =>
          rw [processFrame_geometry s f env fx a b hgeo hpt ha hb, copyFrame_effects]
          simp [createTextureAndImage_fields]
    · rw [if_pos hpt, processFrame_badPixel s f env fx hgeo hpt]
  · rw [if_neg hgeo, processFrame_steady s f env fx hgeo, copyFrame_effects]

theorem processFrame_upload (s : Session) (f : s3eCameraFrameData) (env : FrameEnv)
    (fx : List Effect) (hfx : Effect.Upload ∉ fx) :
    Effect.Upload ∈ (processFrame s f env fx).2 ↔
      ((¬ (s.g_pCameraTexelsRGB565 = none ∨
            u32 (f.m_Width * f.m_Height) ≠ s.g_FrameResolution ∨
            f.m_Rotation ≠ s.g_FrameRotation) ∧
          s.g_pCameraTextureRGB565.isSome = true) ∨
        ((s.g_pCameraTexelsRGB565 = none ∨
            u32 (f.m_Width * f.m_Height) ≠ s.g_FrameResolution ∨
            f.m_Rotation ≠ s.g_FrameRotation) ∧
          f.m_PixelType = S3E_CAMERA_PIXEL_TYPE_RGB565_CONVERTED ∧
          env.texelsRealloc.isSome = true ∧ env.grayscaleRealloc.isSome = true)) := by
  rw [processFrame_effects]
  by_cases hgeo : s.g_pCameraTexelsRGB565 = none ∨
      u32 (f.m_Width * f.m_Height) ≠ s.g_FrameResolution ∨ f.m_Rotation ≠ s.g_FrameRotation
  · rw [if_pos hgeo]
    by_cases hpt : f.m_PixelType = S3E_CAMERA_PIXEL_TYPE_RGB565_CONVERTED
    · rw [if_neg (not_not.mpr hpt)]
      by_cases hal : env.texelsRealloc.isSome = true ∧ env.grayscaleRealloc.isSome = true
      · rw [if_pos hal]
        simp [hgeo, hpt, hal]
      · rw [if_neg hal]
        constructor
        · intro h
          rcases List.mem_append.mp h with h | h
          · exact absurd h hfx
          · simp at h
        · intro h
          rcases h with h | h
          · exact absurd hgeo h.1
          · exact absurd h.2.2 hal
    · rw [if_pos hpt]
      constructor
      · intro h
        rcases List.mem_append.mp h with h | h
        · exact absurd h hfx
        · simp at h
      · intro h
        rcases h with h | h
        · exact absurd hgeo h.1
        · exact absurd h.2.1 hpt
  · rw [if_neg hgeo]
    by_cases htex : s.g_pCameraTextureRGB565.isSome = true
    · rw [if_pos htex]
      simp [hgeo, htex]
    · rw [if_neg htex]
      constructor
      · intro h
        exact absurd h hfx
      · intro h
        rcases h with h | h
        · exact absurd h.2 htex
        · exact absurd h.1 hgeo

/-! ## What a failed reallocation leaves behind -/

theorem reallocLost_streaming :
    portraitSession.g_pCameraTexelsRGB565
      = some { addr := 100, size := 8, cells := [12, 13, 14, 15] } ∧
    reallocLost portraitSession
      { texelsRealloc := none, grayscaleRealloc := some 200, zbar_image_create := true }
      = [{ addr := 100, size := 8, cells := [12, 13, 14, 15] }] ∧
    reallocLost loadingSession
      { texelsRealloc := none, grayscaleRealloc := some 200, zbar_image_create := true } = [] := by
  decide

/-! ## Claims -/

/-- C1: the crop window computed from a frame of width `W` and height `H` has
`squareDim = min W H`; when `W > H` it is `cropX = (W - H) / 2`, `cropY = 0`,
otherwise `cropX = 0`, `cropY = (H - W) / 2`; for 640 by 480 it is 480, 80, 0; and
it is what `onFrame` stores whenever a frame with the supported encoding takes the
geometry branch in state Loading or Streaming and both allocations succeed. -/
theorem crop_window_formula (W H : Nat) :
    (cropWindow W H).squareDim = min W H ∧
    (W > H → (cropWindow W H).cropX = (W - H) / 2 ∧ (cropWindow W H).cropY = 0) ∧
    (¬ W > H → (cropWindow W H).cropX = 0 ∧ (cropWindow W H).cropY = (H - W) / 2) ∧
    cropWindow 640 480 = { squareDim := 480, cropX := 80, cropY := 0 } ∧
    ∀ (s : Session) (f : s3eCameraFrameData) (env : FrameEnv),
      f.m_Width = W → f.m_Height = H →
      (s.g_CameraState = CAMERA_LOADING ∨ s.g_CameraState = CAMERA_STREAMING) →
      (s.g_pCameraTexelsRGB565 = none ∨ u32 (W * H) ≠ s.g_FrameResolution ∨
        f.m_Rotation ≠ s.g_FrameRotation) →
      f.m_PixelType = S3E_CAMERA_PIXEL_TYPE_RGB565_CONVERTED →
      env.texelsRealloc.isSome → env.grayscaleRealloc.isSome →
      (onFrame s f env).1.g_CameraSquareDimension = (cropWindow W H).squareDim ∧
      (onFrame s f env).1.g_CameraCropXStart = (cropWindow W H).cropX ∧
      (onFrame s f env).1.g_CameraCropYStart = (cropWindow W H).cropY := by
  refine ⟨?_, ?_, ?_, by decide, ?_⟩
  · unfold cropWindow; split <;> simp only [] <;> omega
  · intro h; simp [cropWindow, h]
  · intro h; simp [cropWindow, h]
  · intro s f env hW hH hst hgeo hpt ht hg
    subst hW hH
    obtain ⟨a, ha⟩ := Option.isSome_iff_exists.mp ht
    obtain ⟨b, hb⟩ := Option.isSome_iff_exists.mp hg
    rcases hst with hst | hst
    · rw [onFrame_loading s f env hst,
        processFrame_geometry (firstFrameReceived s) f env _ a b hgeo hpt ha hb]
      simp [copyFrame_fields, createTextureAndImage_fields, reallocate_fields]
    · rw [onFrame_streaming s f env hst, processFrame_geometry _ f env _ a b hgeo hpt ha hb]
      simp [copyFrame_fields, createTextureAndImage_fields, reallocate_fields]

/-- C1 at a 640 by 480 frame delivered to the session that has just started. -/
theorem crop_window_formula_witness :
    (onFrame loadingSession (rgbFrame 640 480 S3E_CAMERA_FRAME_ROTNORMAL [])
        (allocAt 100 200)).1.g_CameraSquareDimension = 480 ∧
    (onFrame loadingSession (rgbFrame 640 480 S3E_CAMERA_FRAME_ROTNORMAL [])
        (allocAt 100 200)).1.g_CameraCropXStart = 80 ∧
    (onFrame loadingSession (rgbFrame 640 480 S3E_CAMERA_FRAME_ROTNORMAL [])
        (allocAt 100 200)).1.g_CameraCropYStart = 0 :=
  (crop_window_formula 640 480).2.2.2.2 loadingSession
    (rgbFrame 640 480 S3E_CAMERA_FRAME_ROTNORMAL []) (allocAt 100 200) rfl rfl (by decide)
    (by decide) rfl rfl rfl

/-- C2: a 2 by 2 frame has the crop window (2, 0, 0), and with rotation 180 the copy
reads the source offsets 4, 3, 2, 1, so not every offset read is in
`[0, width * height) = [0, 4)`; delivered to the session that has just started, the
frame leaves a display buffer whose first pixel is the read outside the frame (0 in
this model). -/
theorem rot180_reads_outside_frame :
    cropWindow 2 2 = { squareDim := 2, cropX := 0, cropY := 0 } ∧
    cropRotate 2 2 0 0 S3E_CAMERA_FRAME_ROT180 = [(0, 4), (1, 3), (2, 2), (3, 1)] ∧
    ¬ (∀ w ∈ cropRotate 2 2 0 0 S3E_CAMERA_FRAME_ROT180, (0 : Int) ≤ w.2 ∧ w.2 < 2 * 2) ∧
    (onFrame loadingSession (rgbFrame 2 2 S3E_CAMERA_FRAME_ROT180 [10, 11, 12, 13])
      (allocAt 100 200)).1.g_pCameraTexelsRGB565
      = some { addr := 100, size := 8, cells := [0, 13, 12, 11] } := by
  decide

/-- C3: a 4 by 2 frame has the crop window (2, 1, 0), whose bottom-right corner is at
source offset 6; with rotation 180 the copy starts at offset 7 and reads 7, 6, 3, 2,
so the display buffer is `[17, 16, 13, 12]` and not the reverse `[16, 15, 12, 11]` of
the rotation-0 output `[11, 12, 15, 16]`. -/
theorem rot180_starts_past_corner :
    cropWindow 4 2 = { squareDim := 2, cropX := 1, cropY := 0 } ∧
    cropRotate 4 2 1 0 S3E_CAMERA_FRAME_ROT180 = [(0, 7), (1, 6), (2, 3), (3, 2)] ∧
    (onFrame loadingSession
      (rgbFrame 4 2 S3E_CAMERA_FRAME_ROT180 [10, 11, 12, 13, 14, 15, 16, 17])
      (allocAt 100 200)).1.g_pCameraTexelsRGB565
      = some { addr := 100, size := 8, cells := [17, 16, 13, 12] } ∧
    (onFrame loadingSession
      (rgbFrame 4 2 S3E_CAMERA_FRAME_ROTNORMAL [10, 11, 12, 13, 14, 15, 16, 17])
      (allocAt 100 200)).1.g_pCameraTexelsRGB565
      = some { addr := 100, size := 8, cells := [11, 12, 15, 16] } := by
  decide

/-- C4: for a frame of `W * H < 2^31` pixels and the crop window derived from `W`
and `H`, the copy for rotation 90 leaves `dest[r*S + c] = src[(cropY + c)*W + cropX +
(S-1-r)]` and the copy for rotation 270 leaves `dest[r*S + c] = src[(cropY + S-1-c)*W +
cropX + r]`, for all `r, c < S`, every such source index lying inside the frame. -/
theorem quarter_turn_copy (W H : Nat) (data dest : List Nat) (r c : Nat)
    (hfit : W * H < 2147483648) (hdata : data.length = W * H)
    (hdest : dest.length = (cropWindow W H).squareDim * (cropWindow W H).squareDim)
    (hr : r < (cropWindow W H).squareDim) (hc : c < (cropWindow W H).squareDim) :
    ((cropWindow W H).cropY + c) * W + (cropWindow W H).cropX
        + ((cropWindow W H).squareDim - 1 - r) < data.length ∧
    (storePixels data (cropRotate W (cropWindow W H).squareDim (cropWindow W H).cropX
        (cropWindow W H).cropY S3E_CAMERA_FRAME_ROT90) dest)[r * (cropWindow W H).squareDim + c]?
      = data[((cropWindow W H).cropY + c) * W + (cropWindow W H).cropX
          + ((cropWindow W H).squareDim - 1 - r)]? ∧
    ((cropWindow W H).cropY + ((cropWindow W H).squareDim - 1 - c)) * W
        + (cropWindow W H).cropX + r < data.length ∧
    (storePixels data (cropRotate W (cropWindow W H).squareDim (cropWindow W H).cropX
        (cropWindow W H).cropY S3E_CAMERA_FRAME_ROT270) dest)[r * (cropWindow W H).squareDim + c]?
      = data[((cropWindow W H).cropY + ((cropWindow W H).squareDim - 1 - c)) * W
          + (cropWindow W H).cropX + r]? := by
  obtain ⟨-, -, hX, hY⟩ := cropWindow_inside W H
  have h90 := storePixels_cropRotate W H _ _ _ S3E_CAMERA_FRAME_ROT90 data dest hfit hX hY
    (by decide) hdata hdest r c hr hc
  have h270 := storePixels_cropRotate W H _ _ _ S3E_CAMERA_FRAME_ROT270 data dest hfit hX hY
    (by decide) hdata hdest r c hr hc
  exact ⟨h90.1, h90.2, h270.1, h270.2⟩

/-- C4 at a 3 by 2 frame with pixels 10 to 15 (crop window (2, 0, 0)), destination
row 0, column 1: rotation 90 leaves `src[4]` there, rotation 270 leaves `src[0]`. -/
theorem quarter_turn_copy_witness :
    3 * 2 < 2147483648 ∧
    (storePixels [10, 11, 12, 13, 14, 15] (cropRotate 3 2 0 0 S3E_CAMERA_FRAME_ROT90)
      [0, 0, 0, 0])[1]? = some 14 ∧
    (storePixels [10, 11, 12, 13, 14, 15] (cropRotate 3 2 0 0 S3E_CAMERA_FRAME_ROT270)
      [0, 0, 0, 0])[1]? = some 10 :=
  have h := quarter_turn_copy 3 2 [10, 11, 12, 13, 14, 15] [0, 0, 0, 0] 0 1 (by decide)
    (by decide) (by decide) (by decide) (by decide)
  ⟨by decide, h.2.1.trans (by decide), h.2.2.2.trans (by decide)⟩

/-- C5: for a frame of `W * H < 2^31` pixels, rotation 0 and the crop window derived
from `W` and `H`: exactly `S*S` writes are done, the `k`-th write goes to destination
index `k`, and afterwards `dest[r*S + c] = src[(cropY + r)*W + cropX + c]` for all
`r, c < S`, each such source index lying inside the frame. -/
theorem rot0_centre_crop (W H : Nat) (data dest : List Nat)
    (hfit : W * H < 2147483648) (hdata : data.length = W * H)
    (hdest : dest.length = (cropWindow W H).squareDim * (cropWindow W H).squareDim) :
    (cropRotate W (cropWindow W H).squareDim (cropWindow W H).cropX (cropWindow W H).cropY
        S3E_CAMERA_FRAME_ROTNORMAL).length
      = (cropWindow W H).squareDim * (cropWindow W H).squareDim ∧
    (∀ k, k < (cropWindow W H).squareDim * (cropWindow W H).squareDim →
      ((cropRotate W (cropWindow W H).squareDim (cropWindow W H).cropX (cropWindow W H).cropY
        S3E_CAMERA_FRAME_ROTNORMAL)[k]?).map Prod.fst = some k) ∧
    ∀ r c, r < (cropWindow W H).squareDim → c < (cropWindow W H).squareDim →
      ((cropWindow W H).cropY + r) * W + (cropWindow W H).cropX + c < data.length ∧
      (storePixels data (cropRotate W (cropWindow W H).squareDim (cropWindow W H).cropX
          (cropWindow W H).cropY S3E_CAMERA_FRAME_ROTNORMAL) dest)[r * (cropWindow W H).squareDim
            + c]?
        = data[((cropWindow W H).cropY + r) * W + (cropWindow W H).cropX + c]? := by
  obtain ⟨-, -, hX, hY⟩ := cropWindow_inside W H
  refine ⟨(cropRotate_lookup W H _ _ _ _ hfit hX hY).1, ?_, ?_⟩
  · intro k hk
    obtain ⟨off, h⟩ := cropRotate_sequential W H _ _ _ S3E_CAMERA_FRAME_ROTNORMAL hfit hX hY k hk
    rw [h]; rfl
  · intro r c hr hc
    exact storePixels_cropRotate W H _ _ _ S3E_CAMERA_FRAME_ROTNORMAL data dest hfit hX hY
      (by decide) hdata hdest r c hr hc

/-- C5 at a 4 by 2 frame with pixels 10 to 17 (crop window (2, 1, 0)): four writes,
and destination row 1, column 0 holds `src[5]`. -/
theorem rot0_centre_crop_witness :
    4 * 2 < 2147483648 ∧
    (cropRotate 4 2 1 0 S3E_CAMERA_FRAME_ROTNORMAL).length = 4 ∧
    (storePixels [10, 11, 12, 13, 14, 15, 16, 17] (cropRotate 4 2 1 0 S3E_CAMERA_FRAME_ROTNORMAL)
      [0, 0, 0, 0])[2]? = some 15 :=
  have h := rot0_centre_crop 4 2 [10, 11, 12, 13, 14, 15, 16, 17] [0, 0, 0, 0] (by decide)
    (by decide) (by decide)
  ⟨by decide, h.1, (h.2.2 1 0 (by decide) (by decide)).2.trans (by decide)⟩

/-- C6: for every pixel value `p`, `toLuma p` is `clamp_0_255((77*R + 150*G + 29*B) >> 8)`
with `R = (p & 0xF800) >> 8`, `G = (p & 0x07E0) >> 3`, `B = (p & 0x001F) << 3`, and it
is at most 255; the conversion loop over `n` pixels stores exactly that value of
`src[i]` at every `dest[i]`, `i < n`. -/
theorem toLuma_formula (p : Nat) :
    toLuma p = lumaSpec p ∧ toLuma p ≤ 255 ∧
    ∀ (src dest : List Nat) (n i : Nat), n ≤ dest.length → i < n →
      (lumaLoop src n 0 dest)[i]? = some (lumaSpec (src.getD i 0)) := by
  have key : ∀ q : Nat, toLuma q = lumaSpec q ∧ toLuma q ≤ 255 := by
    intro q
    have hr : (q &&& 0xf800) >>> 8 ≤ 248 := by
      have := @Nat.and_le_right q 0xf800
      rw [Nat.shiftRight_eq_div_pow]; omega
    have hg : (q &&& 0x07e0) >>> 3 ≤ 252 := by
      have := @Nat.and_le_right q 0x07e0
      rw [Nat.shiftRight_eq_div_pow]; omega
    have hb : (q &&& 0x001f) <<< 3 ≤ 248 := by
      have := @Nat.and_le_right q 0x001f
      rw [Nat.shiftLeft_eq]; omega
    unfold toLuma lumaSpec
    simp only [Nat.shiftRight_eq_div_pow (77 * _ + _ + _)]
    generalize (q &&& 0xf800) >>> 8 = R at hr ⊢
    generalize (q &&& 0x07e0) >>> 3 = G at hg ⊢
    generalize (q &&& 0x001f) <<< 3 = B at hb ⊢
    simp only [Nat.mod_eq_of_lt (show R < 256 by omega), Nat.mod_eq_of_lt (show G < 256 by omega),
      Nat.mod_eq_of_lt (show B < 256 by omega)]
    have h1 : ¬ (((77 * R + 150 * G + 29 * B : Nat) : Int) / 256 > 255) := by omega
    have h2 : ¬ (((77 * R + 150 * G + 29 * B : Nat) : Int) / 256 < 0) := by omega
    simp only [h1, h2, if_false]
    omega
  refine ⟨(key p).1, (key p).2, ?_⟩
  intro src dest n i hn hi
  rw [(lumaLoop_lookup src n 0 dest (by omega) i).1 (by omega) (by omega), (key _).1]

/-- C6 at a two-pixel buffer holding a white and a black pixel. -/
theorem toLuma_formula_witness :
    (2 : Nat) ≤ [7, 7].length ∧ (lumaLoop [0xFFFF, 0] 2 0 [7, 7])[0]? = some 250 :=
  ⟨by decide,
    ((toLuma_formula 0).2.2 [0xFFFF, 0] [7, 7] 2 0 (by decide) (by decide)).trans (by decide)⟩

/-- C7 as stated fails: the luma of the white pixel `0xFFFF` is not 255. -/
theorem white_luma_not_255 : ¬ (toLuma 0xFFFF = 255 ∧ toLuma 0x0000 = 0) := by
  decide

/-- C7, amended: `toLuma` maps the white pixel `0xFFFF` to 250 and the black pixel
`0x0000` to 0. -/
theorem white_luma_250 : toLuma 0xFFFF = 250 ∧ toLuma 0x0000 = 0 := by
  decide

/-- C8: after a 2 by 4 frame processed while Streaming, a 4 by 2 frame with the same
rotation (a different width and height, the same resolution 8) is processed without
the geometry branch: the session stays Streaming, the stored crop window stays
(2, 0, 1) although the window derived from 4 by 2 is (2, 1, 0), the buffers are not
reallocated (the addresses offered, 300 and 400, are not taken) and the image is not
rebound; the copy then reads the source offsets 4, 5, 8, 9, the last two outside the
8 pixels of the frame. -/
theorem same_resolution_change_missed :
    portraitSession.g_CameraState = CAMERA_STREAMING ∧
    (portraitSession.g_CameraSquareDimension, portraitSession.g_CameraCropXStart,
      portraitSession.g_CameraCropYStart) = (2, 0, 1) ∧
    portraitSession.g_pCameraTexelsRGB565 = some { addr := 100, size := 8, cells := [12, 13, 14, 15] } ∧
    (onFrame portraitSession
      (rgbFrame 4 2 S3E_CAMERA_FRAME_ROTNORMAL [20, 21, 22, 23, 24, 25, 26, 27])
      (allocAt 300 400)).1
      = { portraitSession with
          g_pCameraTexelsRGB565 := some { addr := 100, size := 8, cells := [24, 25, 0, 0] } } ∧
    cropWindow 4 2 = { squareDim := 2, cropX := 1, cropY := 0 } ∧
    cropRotate 4 2 0 1 S3E_CAMERA_FRAME_ROTNORMAL = [(0, 4), (1, 5), (2, 8), (3, 9)] := by
  decide

/-- C9 as stated fails: in the session reached by a successful start, one 2 by 2
frame and a scan that decoded a QR code, the detection flag is true and a 1 by 1 frame
makes `onFrame` reallocate the display buffer, from 4 pixels to 1. -/
theorem latch_display_buffer_reallocated :
    foundSession.qrCodeFound = true ∧
    foundSession.g_CameraState = CAMERA_STREAMING ∧
    foundSession.g_pCameraTexelsRGB565
      = some { addr := 100, size := 8, cells := [10, 11, 12, 13] } ∧
    (onFrame foundSession (rgbFrame 1 1 S3E_CAMERA_FRAME_ROTNORMAL [7])
      (allocAt 100 200)).1.g_pCameraTexelsRGB565 = some { addr := 100, size := 2, cells := [10] } ∧
    (onFrame foundSession (rgbFrame 1 1 S3E_CAMERA_FRAME_ROTNORMAL [7])
      (allocAt 100 200)).1.g_pCameraTexelsRGB565 ≠ foundSession.g_pCameraTexelsRGB565 := by
  decide

/-- C9, amended: in every state where the detection flag is true, `onFrame` copies no
pixel of the frame into the display buffer (the buffer it leaves does not depend on
the frame's pixel data) and leaves the buffer unchanged for every frame whose
resolution and rotation are the stored ones while the buffer is allocated;
`onScanTick` changes nothing in the session and runs no scan pass; the flag stays
true under `start`, `stop`, `onStreamStopped`, `onFrame` and `onScanTick`, and
`requestRescan` sets it to false; after `requestRescan`, in state Streaming,
`onFrame` copies the cropped and rotated frame again and `onScanTick` runs a scan
pass when the recognition image exists. -/
theorem detection_latch (s : Session) (h : s.qrCodeFound = true) :
    (∀ f env, s.g_pCameraTexelsRGB565 ≠ none →
      u32 (f.m_Width * f.m_Height) = s.g_FrameResolution → f.m_Rotation = s.g_FrameRotation →
      (onFrame s f env).1.g_pCameraTexelsRGB565 = s.g_pCameraTexelsRGB565) ∧
    (∀ f env data, (onFrame s { f with m_Data := data } env).1.g_pCameraTexelsRGB565
      = (onFrame s f env).1.g_pCameraTexelsRGB565) ∧
    (∀ env, (onScanTick s env).1 = s ∧ Effect.zbar_scan_image ∉ (onScanTick s env).2) ∧
    (∀ env, (start s env).qrCodeFound = true) ∧
    (stop s).qrCodeFound = true ∧
    (onStreamStopped s).qrCodeFound = true ∧
    (∀ f env, (onFrame s f env).1.qrCodeFound = true) ∧
    (requestRescan s).qrCodeFound = false ∧
    (∀ f env b, s.g_CameraState = CAMERA_STREAMING → s.g_pCameraTexelsRGB565 = some b →
      s.g_pCameraTextureRGB565.isSome = true →
      u32 (f.m_Width * f.m_Height) = s.g_FrameResolution → f.m_Rotation = s.g_FrameRotation →
      (onFrame (requestRescan s) f env).1.g_pCameraTexelsRGB565
        = some { b with
            cells := storePixels f.m_Data
              (cropRotate f.m_Width s.g_CameraSquareDimension s.g_CameraCropXStart
                s.g_CameraCropYStart f.m_Rotation) b.cells }) ∧
    (∀ env, s.g_CameraState = CAMERA_STREAMING → s.g_pZBarImage.isSome = true →
      Effect.zbar_scan_image ∈ (onScanTick (requestRescan s) env).2) := by
  refine ⟨?_, ?_, ?_, ?_, ?_, ?_, ?_, ?_, ?_, ?_⟩
  · intro f env h1 h2 h3
    exact onFrame_found_steady s f env h (by simp [h1, h2, h3])
  · intro f env data
    exact (onFrame_found s f env h).2 data
  · intro env
    simp [onScanTick, ScanQrCodeCallback, h]
  · intro env
    rw [start, StartCamera_flag, h]
  · simp [stop, StopCamera, h]
  · simp [onStreamStopped, CameraStoppedCallback, StopCamera, h]
  · intro f env
    exact (onFrame_found s f env h).1
  · exact (requestRescan_fields s).1
  · intro f env b hst hbuf htex hres hrot
    have hst2 : (requestRescan s).g_CameraState = CAMERA_STREAMING := by
      simp [requestRescan_fields, hst]
    rw [onFrame_streaming _ f env hst2,
      processFrame_steady _ f env _ (by simp [requestRescan_fields, hbuf, hres, hrot]),
      copyFrame_copies _ f _ b (requestRescan_fields s).1 (by simp [requestRescan_fields, htex])
        (by simp [requestRescan_fields, hbuf])]
    simp [requestRescan_fields]
  · intro env hst himg
    have e : (onScanTick (requestRescan s) env).2
        = [Effect.zbar_scan_image, Effect.s3eTimerSetTimer g_QrScanTimeout] := by
      simp [onScanTick, ScanQrCodeCallback, requestRescan_fields, hst, himg]
    rw [e]
    simp

/-- C9 at the session in which a QR code has been decoded. -/
theorem detection_latch_witness :
    foundSession.qrCodeFound = true ∧
    (onScanTick foundSession { zbar_scan_image := 1, symbols := [] }).1 = foundSession ∧
    (requestRescan foundSession).qrCodeFound = false ∧
    Effect.zbar_scan_image
      ∈ (onScanTick (requestRescan foundSession) { zbar_scan_image := 1, symbols := [] }).2 :=
  have h := detection_latch foundSession (by decide)
  ⟨by decide, (h.2.2.1 _).1, h.2.2.2.2.2.2.2.1, h.2.2.2.2.2.2.2.2.2 _ (by decide) (by decide)⟩

/-- C10: from every session state, `stop()` ends in Idle with the display buffer, the
luma buffer, the texture, the recognition image and the recognition engine released,
both notification registrations removed and the camera stream stopped;
`onStreamStopped` gives the same state; and `stop` is idempotent. -/
theorem stop_releases_everything (s : Session) :
    (stop s).g_CameraState = CAMERA_IDLE ∧
    (stop s).g_pCameraTexelsRGB565 = none ∧
    (stop s).g_pCameraPixelsGrayscale = none ∧
    (stop s).g_pCameraTextureRGB565 = none ∧
    (stop s).g_pZBarImage = none ∧
    (stop s).g_pZBarScanner = false ∧
    (stop s).updateRegistered = false ∧
    (stop s).stoppedRegistered = false ∧
    (stop s).cameraStarted = false ∧
    onStreamStopped s = stop s ∧
    stop (stop s) = stop s := by
  simp [stop, onStreamStopped, CameraStoppedCallback, StopCamera]

/-- C11: `start()` on a session that is not running (stream stopped, nothing
registered). If the camera is unavailable, only the state, set to Unavailable, and
the status caption change, so the stream is not started, nothing is registered and
Loading is not entered. If the camera is unavailable, the stream start fails or one
of the two registrations fails, `start()` ends in Unavailable with the stream stopped
and no registration in place. -/
theorem start_fails_closed (s : Session) (env : StartEnv)
    (hcam : s.cameraStarted = false) (hupd : s.updateRegistered = false)
    (hstop : s.stoppedRegistered = false) :
    (env.s3eCameraAvailable = false →
      start s env
        = { s with statusCaption := "Camera not available!",
                   g_CameraState := CAMERA_UNAVAILABLE }) ∧
    (env.s3eCameraAvailable = false ∨ env.s3eCameraStart = false ∨
        env.registerUpdate = false ∨ env.registerStopped = false →
      (start s env).g_CameraState = CAMERA_UNAVAILABLE ∧
      (start s env).cameraStarted = false ∧
      (start s env).updateRegistered = false ∧
      (start s env).stoppedRegistered = false) := by
  constructor
  · intro h
    simp [start, StartCamera, h]
  · intro h
    unfold start StartCamera
    cases ha : env.s3eCameraAvailable <;> cases hb : env.s3eCameraStart <;>
      cases hc : env.registerUpdate <;> cases hd : env.registerStopped <;>
      simp [ha, hb, hc, hd, hcam, hupd, hstop, StopCamera] at h ⊢

/-- C11 at the initial session with a stop registration that fails. -/
theorem start_fails_closed_witness :
    (start initialSession
      { s3eCameraAvailable := true, s3eCameraStart := true, registerUpdate := true,
        registerStopped := false, zbar_image_scanner_create := true }).g_CameraState
      = CAMERA_UNAVAILABLE ∧
    (start initialSession
      { s3eCameraAvailable := true, s3eCameraStart := true, registerUpdate := true,
        registerStopped := false, zbar_image_scanner_create := true }).updateRegistered
      = false :=
  have h := (start_fails_closed initialSession
    { s3eCameraAvailable := true, s3eCameraStart := true, registerUpdate := true,
      registerStopped := false, zbar_image_scanner_create := true } rfl rfl rfl).2
    (Or.inr (Or.inr (Or.inr rfl)))
  ⟨h.1, h.2.2.1⟩

/-- C12: for a frame with the supported pixel encoding during which both allocations
succeed, `onFrame` in Loading ends in Streaming and arms the scan timer exactly once,
and `onFrame` in Streaming stays in Streaming and arms no timer; hence a non-empty
sequence of such frames delivered to a session in Loading ends in Streaming with
exactly one timer armed in all. -/
theorem first_frame_arms_once (s : Session) (f : s3eCameraFrameData) (env : FrameEnv)
    (hpt : f.m_PixelType = S3E_CAMERA_PIXEL_TYPE_RGB565_CONVERTED)
    (ha : env.texelsRealloc.isSome = true) (hb : env.grayscaleRealloc.isSome = true) :
    (s.g_CameraState = CAMERA_LOADING →
      (onFrame s f env).1.g_CameraState = CAMERA_STREAMING ∧
      timerArms (onFrame s f env).2 = 1) ∧
    (s.g_CameraState = CAMERA_STREAMING →
      (onFrame s f env).1.g_CameraState = CAMERA_STREAMING ∧
      timerArms (onFrame s f env).2 = 0) ∧
    (s.g_CameraState = CAMERA_LOADING →
      ∀ rest : List (s3eCameraFrameData × FrameEnv),
        (∀ fe ∈ rest, fe.1.m_PixelType = S3E_CAMERA_PIXEL_TYPE_RGB565_CONVERTED ∧
          fe.2.texelsRealloc.isSome = true ∧ fe.2.grayscaleRealloc.isSome = true) →
        (onFrames s ((f, env) :: rest)).1.g_CameraState = CAMERA_STREAMING ∧
        timerArms (onFrames s ((f, env) :: rest)).2 = 1) := by
  have hload : s.g_CameraState = CAMERA_LOADING →
      (onFrame s f env).1.g_CameraState = CAMERA_STREAMING ∧
      timerArms (onFrame s f env).2 = 1 := by
    intro hst
    have h := processFrame_ok (firstFrameReceived s) f env
      [Effect.s3eTimerSetTimer g_QrScanTimeout] hpt ha hb
    rw [← onFrame_loading s f env hst] at h
    exact ⟨by rw [h.1]; rfl, by rw [h.2]; rfl⟩
  refine ⟨hload, ?_, ?_⟩
  · intro hst
    have h := processFrame_ok s f env [] hpt ha hb
    rw [← onFrame_streaming s f env hst] at h
    exact ⟨by rw [h.1, hst], by rw [h.2]; rfl⟩
  · intro hst rest hok
    have h1 := hload hst
    have h2 := onFrames_streaming (onFrame s f env).1 rest h1.1 hok
    simp only [onFrames, timerArms_append]
    exact ⟨h2.1, by rw [h1.2, h2.2]⟩

/-- C12 at three 2 by 2 frames delivered after a successful start. -/
theorem first_frame_arms_once_witness :
    loadingSession.g_CameraState = CAMERA_LOADING ∧
    (onFrames loadingSession
      [(rgbFrame 2 2 S3E_CAMERA_FRAME_ROTNORMAL [10, 11, 12, 13], allocAt 100 200),
       (rgbFrame 2 2 S3E_CAMERA_FRAME_ROTNORMAL [20, 21, 22, 23], allocAt 100 200),
       (rgbFrame 2 2 S3E_CAMERA_FRAME_ROT90 [30, 31, 32, 33], allocAt 100 200)]).1.g_CameraState
      = CAMERA_STREAMING ∧
    timerArms (onFrames loadingSession
      [(rgbFrame 2 2 S3E_CAMERA_FRAME_ROTNORMAL [10, 11, 12, 13], allocAt 100 200),
       (rgbFrame 2 2 S3E_CAMERA_FRAME_ROTNORMAL [20, 21, 22, 23], allocAt 100 200),
       (rgbFrame 2 2 S3E_CAMERA_FRAME_ROT90 [30, 31, 32, 33], allocAt 100 200)]).2 = 1 :=
  have h := (first_frame_arms_once loadingSession
    (rgbFrame 2 2 S3E_CAMERA_FRAME_ROTNORMAL [10, 11, 12, 13]) (allocAt 100 200)
    rfl rfl rfl).2.2 (by decide)
    [(rgbFrame 2 2 S3E_CAMERA_FRAME_ROTNORMAL [20, 21, 22, 23], allocAt 100 200),
     (rgbFrame 2 2 S3E_CAMERA_FRAME_ROT90 [30, 31, 32, 33], allocAt 100 200)]
    (by decide)
  ⟨by decide, h.1, h.2⟩

/-- C13 as stated fails: after a successful start, a 2 by 2 frame during which the
allocation of the display buffer fails leaves the session in Idle, not in
Unavailable. -/
theorem alloc_failure_ends_idle :
    loadingSession.g_CameraState = CAMERA_LOADING ∧
    (onFrame loadingSession (rgbFrame 2 2 S3E_CAMERA_FRAME_ROTNORMAL [10, 11, 12, 13])
      { texelsRealloc := none, grayscaleRealloc := some 200,
        zbar_image_create := true }).1.g_CameraState = CAMERA_IDLE ∧
    (onFrame loadingSession (rgbFrame 2 2 S3E_CAMERA_FRAME_ROTNORMAL [10, 11, 12, 13])
      { texelsRealloc := none, grayscaleRealloc := some 200,
        zbar_image_create := true }).1.g_CameraState ≠ CAMERA_UNAVAILABLE := by
  decide

/-- C13, amended: if one of the two buffer allocations fails inside `onFrame` (a frame
with the supported encoding that takes the geometry branch in Loading or Streaming),
the session ends in state Idle with both buffer pointers `NULL`, so that no buffer
stays installed, the texture, the recognition image and the engine released and both
registrations removed, and no copy is performed: no texture upload is signalled.
What becomes of the old block of the buffer whose reallocation failed is not part of
the statement. -/
theorem alloc_failure_stops (s : Session) (f : s3eCameraFrameData) (env : FrameEnv)
    (hst : s.g_CameraState = CAMERA_LOADING ∨ s.g_CameraState = CAMERA_STREAMING)
    (hgeo : s.g_pCameraTexelsRGB565 = none ∨ u32 (f.m_Width * f.m_Height) ≠ s.g_FrameResolution ∨
      f.m_Rotation ≠ s.g_FrameRotation)
    (hpt : f.m_PixelType = S3E_CAMERA_PIXEL_TYPE_RGB565_CONVERTED)
    (hfail : env.texelsRealloc = none ∨ env.grayscaleRealloc = none) :
    (onFrame s f env).1.g_CameraState = CAMERA_IDLE ∧
    (onFrame s f env).1.g_pCameraTexelsRGB565 = none ∧
    (onFrame s f env).1.g_pCameraPixelsGrayscale = none ∧
    (onFrame s f env).1.g_pCameraTextureRGB565 = none ∧
    (onFrame s f env).1.g_pZBarImage = none ∧
    (onFrame s f env).1.g_pZBarScanner = false ∧
    (onFrame s f env).1.updateRegistered = false ∧
    (onFrame s f env).1.stoppedRegistered = false ∧
    Effect.Upload ∉ (onFrame s f env).2 := by
  rcases hst with hst | hst
  · rw [onFrame_loading s f env hst,
      processFrame_allocFail (firstFrameReceived s) f env _ hgeo hpt hfail]
    simp [StopCamera]
  · rw [onFrame_streaming s f env hst, processFrame_allocFail s f env _ hgeo hpt hfail]
    simp [StopCamera]

/-- C13, amended, at a 2 by 2 frame after a successful start, the allocation of the
luma buffer failing. -/
theorem alloc_failure_stops_witness :
    (onFrame loadingSession (rgbFrame 2 2 S3E_CAMERA_FRAME_ROTNORMAL [10, 11, 12, 13])
      { texelsRealloc := some 100, grayscaleRealloc := none,
        zbar_image_create := true }).1.g_CameraState = CAMERA_IDLE ∧
    (onFrame loadingSession (rgbFrame 2 2 S3E_CAMERA_FRAME_ROTNORMAL [10, 11, 12, 13])
      { texelsRealloc := some 100, grayscaleRealloc := none,
        zbar_image_create := true }).1.g_pCameraTexelsRGB565 = none :=
  have h := alloc_failure_stops loadingSession
    (rgbFrame 2 2 S3E_CAMERA_FRAME_ROTNORMAL [10, 11, 12, 13])
    { texelsRealloc := some 100, grayscaleRealloc := none, zbar_image_create := true }
    (by decide) (by decide) rfl (Or.inr rfl)
  ⟨h.1, h.2.1⟩

/-- C14 as stated fails: in the Streaming session that holds a 2 by 4 frame at
rotation 0, a 2 by 4 frame at rotation 0 in the NV21 encoding is processed like any
other: the session stays Streaming and the frame's pixels 12 to 15 are copied into the
display buffer. -/
theorem unsupported_encoding_copied :
    portraitSession.g_CameraState = CAMERA_STREAMING ∧
    (onFrame portraitSession
      { m_Width := 2, m_Height := 4, m_Pitch := 4, m_Rotation := S3E_CAMERA_FRAME_ROTNORMAL,
        m_PixelType := S3E_CAMERA_PIXEL_TYPE_NV21,
        m_Data := [20, 21, 22, 23, 24, 25, 26, 27] } (allocAt 100 200)).1
      = { portraitSession with
          g_pCameraTexelsRGB565 := some { addr := 100, size := 8, cells := [22, 23, 24, 25] } } := by
  decide

/-- C14, amended: for every frame received in Loading or Streaming that takes the
geometry branch (the display buffer is not allocated, or the frame's resolution or
rotation differs from the stored one) and whose pixel encoding is not the supported
one, `onFrame` stops the session and ends in Unavailable with both buffers, the
texture, the image and the engine released and both registrations removed, and none
of the frame's pixels is copied: no display buffer is left and no upload is signalled. -/
theorem unsupported_encoding_stops (s : Session) (f : s3eCameraFrameData) (env : FrameEnv)
    (hst : s.g_CameraState = CAMERA_LOADING ∨ s.g_CameraState = CAMERA_STREAMING)
    (hgeo : s.g_pCameraTexelsRGB565 = none ∨ u32 (f.m_Width * f.m_Height) ≠ s.g_FrameResolution ∨
      f.m_Rotation ≠ s.g_FrameRotation)
    (hpt : f.m_PixelType ≠ S3E_CAMERA_PIXEL_TYPE_RGB565_CONVERTED) :
    (onFrame s f env).1.g_CameraState = CAMERA_UNAVAILABLE ∧
    (onFrame s f env).1.g_pCameraTexelsRGB565 = none ∧
    (onFrame s f env).1.g_pCameraPixelsGrayscale = none ∧
    (onFrame s f env).1.g_pCameraTextureRGB565 = none ∧
    (onFrame s f env).1.g_pZBarImage = none ∧
    (onFrame s f env).1.g_pZBarScanner = false ∧
    (onFrame s f env).1.updateRegistered = false ∧
    (onFrame s f env).1.stoppedRegistered = false ∧
    (onFrame s f env).1.cameraStarted = false ∧
    Effect.Upload ∉ (onFrame s f env).2 := by
  rcases hst with hst | hst
  · rw [onFrame_loading s f env hst,
      processFrame_badPixel (firstFrameReceived s) f env _ hgeo hpt]
    simp [StopCamera]
  · rw [onFrame_streaming s f env hst, processFrame_badPixel s f env _ hgeo hpt]
    simp [StopCamera]

/-- C14, amended, at the first frame after a successful start, in the NV21 encoding. -/
theorem unsupported_encoding_stops_witness :
    (onFrame loadingSession
      { m_Width := 2, m_Height := 2, m_Pitch := 4, m_Rotation := S3E_CAMERA_FRAME_ROTNORMAL,
        m_PixelType := S3E_CAMERA_PIXEL_TYPE_NV21, m_Data := [20, 21, 22, 23] }
      (allocAt 100 200)).1.g_CameraState = CAMERA_UNAVAILABLE ∧
    Effect.Upload ∉ (onFrame loadingSession
      { m_Width := 2, m_Height := 2, m_Pitch := 4, m_Rotation := S3E_CAMERA_FRAME_ROTNORMAL,
        m_PixelType := S3E_CAMERA_PIXEL_TYPE_NV21, m_Data := [20, 21, 22, 23] }
      (allocAt 100 200)).2 :=
  have h := unsupported_encoding_stops loadingSession
    { m_Width := 2, m_Height := 2, m_Pitch := 4, m_Rotation := S3E_CAMERA_FRAME_ROTNORMAL,
      m_PixelType := S3E_CAMERA_PIXEL_TYPE_NV21, m_Data := [20, 21, 22, 23] }
    (allocAt 100 200) (by decide) (by decide) (by decide)
  ⟨h.1, h.2.2.2.2.2.2.2.2.2⟩

/-- C15: for an `onScanTick` that runs a scan pass (flag false, state Streaming, image
present) and an engine that returns 0 from `zbar_scan_image` only when it attached no
symbol: the detection flag is true afterwards if and only if the list of symbols
contains a symbol of type `ZBAR_QRCODE`; a pass with no symbol, or with symbols of
other types only, leaves the flag false, the status caption and the scan button
unchanged; and when a text is reported, it is the data of a QR symbol of the list. -/
theorem scan_pass_sets_flag (s : Session) (env : ScanEnv)
    (hflag : s.qrCodeFound = false) (hst : s.g_CameraState = CAMERA_STREAMING)
    (himg : s.g_pZBarImage.isSome = true)
    (hengine : env.zbar_scan_image = 0 → env.symbols = []) :
    Effect.zbar_scan_image ∈ (onScanTick s env).2 ∧
    ((onScanTick s env).1.qrCodeFound = true
      ↔ ∃ sym ∈ env.symbols, sym.get_type = ZBAR_QRCODE) ∧
    ((∀ sym ∈ env.symbols, sym.get_type ≠ ZBAR_QRCODE) →
      (onScanTick s env).1.qrCodeFound = false ∧
      (onScanTick s env).1.statusCaption = s.statusCaption ∧
      (onScanTick s env).1.scanButtonEnabled = s.scanButtonEnabled) ∧
    ((∃ sym ∈ env.symbols, sym.get_type = ZBAR_QRCODE) →
      ∃ sym ∈ env.symbols, sym.get_type = ZBAR_QRCODE ∧
        (onScanTick s env).1.statusCaption = "QR Code found: " ++ sym.get_data) := by
  have hrun := onScanTick_run s env hflag hst himg
  have hnone : (∀ sym ∈ env.symbols, sym.get_type ≠ ZBAR_QRCODE) →
      (onScanTick s env).1.qrCodeFound = false ∧
      (onScanTick s env).1.statusCaption = s.statusCaption ∧
      (onScanTick s env).1.scanButtonEnabled = s.scanButtonEnabled := by
    intro h
    rw [hrun, symbolLoop_none _ _ h]
    simp [lumaConverted, hflag]
  have hsome : (∃ sym ∈ env.symbols, sym.get_type = ZBAR_QRCODE) →
      ∃ sym ∈ env.symbols, sym.get_type = ZBAR_QRCODE ∧
        (onScanTick s env).1.qrCodeFound = true ∧
        (onScanTick s env).1.statusCaption = "QR Code found: " ++ sym.get_data := by
    intro h
    have hret : env.zbar_scan_image ≠ 0 := by
      intro h0
      obtain ⟨sym, hm, -⟩ := h
      rw [hengine h0] at hm
      simp at hm
    obtain ⟨sym, hm, hq, he⟩ := symbolLoop_found (lumaConverted s) env.symbols h
    refine ⟨sym, hm, hq, ?_⟩
    rw [hrun, if_pos hret, he]
    exact ⟨rfl, rfl⟩
  refine ⟨by rw [hrun]; simp, ?_, hnone, ?_⟩
  · constructor
    · intro hfound
      by_contra hno
      have h := hnone (fun sym hm hq => hno ⟨sym, hm, hq⟩)
      rw [h.1] at hfound
      exact Bool.noConfusion hfound
    · intro h
      obtain ⟨_, _, _, h1, _⟩ := hsome h
      exact h1
  · intro h
    obtain ⟨sym, hm, hq, _, h2⟩ := hsome h
    exact ⟨sym, hm, hq, h2⟩

/-- C15 at a scan that returns an EAN symbol and a QR symbol. -/
theorem scan_pass_sets_flag_witness :
    ((onFrame loadingSession (rgbFrame 2 2 S3E_CAMERA_FRAME_ROTNORMAL [10, 11, 12, 13])
        (allocAt 100 200)).1.qrCodeFound = false) ∧
    (onScanTick
      (onFrame loadingSession (rgbFrame 2 2 S3E_CAMERA_FRAME_ROTNORMAL [10, 11, 12, 13])
        (allocAt 100 200)).1
      { zbar_scan_image := 2,
        symbols := [{ get_type := ZBAR_OTHER 13, get_data := "4006381333931" },
                    { get_type := ZBAR_QRCODE, get_data := "HELLO" }] }).1.qrCodeFound = true :=
  have h := scan_pass_sets_flag
    (onFrame loadingSession (rgbFrame 2 2 S3E_CAMERA_FRAME_ROTNORMAL [10, 11, 12, 13])
      (allocAt 100 200)).1
    { zbar_scan_image := 2,
      symbols := [{ get_type := ZBAR_OTHER 13, get_data := "4006381333931" },
                  { get_type := ZBAR_QRCODE, get_data := "HELLO" }] }
    (by decide) (by decide) (by decide) (by decide)
  ⟨by decide, h.2.1.mpr ⟨{ get_type := ZBAR_QRCODE, get_data := "HELLO" }, by decide, rfl⟩⟩

/-- C16 as stated fails: in the session in which a QR code has been decoded the
detection flag is true, and a further 2 by 2 frame makes `onFrame` upload the texture
although it copies no pixel. -/
theorem upload_while_found :
    foundSession.qrCodeFound = true ∧
    (onFrame foundSession (rgbFrame 2 2 S3E_CAMERA_FRAME_ROTNORMAL [20, 21, 22, 23])
      (allocAt 100 200)).2 = [Effect.Upload] ∧
    (onFrame foundSession (rgbFrame 2 2 S3E_CAMERA_FRAME_ROTNORMAL [20, 21, 22, 23])
      (allocAt 100 200)).1 = foundSession := by
  decide

/-- C16, amended: `onFrame` signals the texture upload whether the detection flag is
true or false. The upload is signalled exactly for the frames processed to the end:
in Loading or Streaming, either a frame with the stored resolution and rotation while
the display buffer is allocated and the texture exists, or a frame with the supported
encoding that takes the geometry branch with both allocations succeeding. The effects
of `onFrame` are the same with the flag true and with the flag false, so every frame
processed to the end while the flag is true signals the upload. -/
theorem upload_every_processed_frame (s : Session) (f : s3eCameraFrameData) (env : FrameEnv) :
    (Effect.Upload ∈ (onFrame s f env).2 ↔
      (s.g_CameraState = CAMERA_LOADING ∨ s.g_CameraState = CAMERA_STREAMING) ∧
      ((¬ (s.g_pCameraTexelsRGB565 = none ∨
            u32 (f.m_Width * f.m_Height) ≠ s.g_FrameResolution ∨
            f.m_Rotation ≠ s.g_FrameRotation) ∧
          s.g_pCameraTextureRGB565.isSome = true) ∨
        ((s.g_pCameraTexelsRGB565 = none ∨
            u32 (f.m_Width * f.m_Height) ≠ s.g_FrameResolution ∨
            f.m_Rotation ≠ s.g_FrameRotation) ∧
          f.m_PixelType = S3E_CAMERA_PIXEL_TYPE_RGB565_CONVERTED ∧
          env.texelsRealloc.isSome = true ∧ env.grayscaleRealloc.isSome = true))) ∧
    (∀ flag : Bool, (onFrame { s with qrCodeFound := flag } f env).2 = (onFrame s f env).2) := by
  constructor
  · by_cases h1 : s.g_CameraState = CAMERA_LOADING
    · rw [onFrame_loading s f env h1]
      exact (processFrame_upload (firstFrameReceived s) f env _ (by decide)).trans
        ⟨fun h => ⟨Or.inl h1, h⟩, fun h => h.2⟩
    · by_cases h2 : s.g_CameraState = CAMERA_STREAMING
      · rw [onFrame_streaming s f env h2]
        exact (processFrame_upload s f env _ (by decide)).trans
          ⟨fun h => ⟨Or.inr h2, h⟩, fun h => h.2⟩
      · rw [onFrame_stopped s f env h1 h2]
        simp [h1, h2]
  · intro flag
    by_cases h1 : s.g_CameraState = CAMERA_LOADING
    · rw [onFrame_loading s f env h1, onFrame_loading { s with qrCodeFound := flag } f env h1,
        processFrame_effects, processFrame_effects]
      rfl
    · by_cases h2 : s.g_CameraState = CAMERA_STREAMING
      · rw [onFrame_streaming s f env h2,
          onFrame_streaming { s with qrCodeFound := flag } f env h2,
          processFrame_effects, processFrame_effects]
      · rw [onFrame_stopped s f env h1 h2,
          onFrame_stopped { s with qrCodeFound := flag } f env h1 h2]

/-- C16, amended, at the session in which a QR code has been decoded: the flag is true
and a further 2 by 2 frame signals the upload, as it does with the flag false. -/
theorem upload_every_processed_frame_witness :
    foundSession.qrCodeFound = true ∧
    Effect.Upload ∈ (onFrame foundSession
      (rgbFrame 2 2 S3E_CAMERA_FRAME_ROTNORMAL [20, 21, 22, 23]) (allocAt 100 200)).2 ∧
    (onFrame { foundSession with qrCodeFound := false }
      (rgbFrame 2 2 S3E_CAMERA_FRAME_ROTNORMAL [20, 21, 22, 23]) (allocAt 100 200)).2
      = (onFrame foundSession
          (rgbFrame 2 2 S3E_CAMERA_FRAME_ROTNORMAL [20, 21, 22, 23]) (allocAt 100 200)).2 :=
  have h := upload_every_processed_frame foundSession
    (rgbFrame 2 2 S3E_CAMERA_FRAME_ROTNORMAL [20, 21, 22, 23]) (allocAt 100 200)
  ⟨by decide, h.1.mpr ⟨Or.inr (by decide), Or.inl ⟨by decide, by decide⟩⟩, h.2 false⟩

/-- C17: in state Idle or Unavailable `onFrame` changes nothing in the session (state,
stored resolution and rotation, crop window, buffers, image, flag and all the rest)
and has no effect, so it arms no timer; `onScanTick` in a state other than Streaming
changes nothing in the session either (so the luma buffer is not converted) and runs
no scan; its only effect is the next timer. -/
theorem late_notification_is_noop (s : Session) :
    (s.g_CameraState = CAMERA_IDLE ∨ s.g_CameraState = CAMERA_UNAVAILABLE →
      ∀ f env, onFrame s f env = (s, []) ∧ timerArms (onFrame s f env).2 = 0) ∧
    (s.g_CameraState ≠ CAMERA_STREAMING →
      ∀ env, (onScanTick s env).1 = s ∧ Effect.zbar_scan_image ∉ (onScanTick s env).2 ∧
        (onScanTick s env).2 = [Effect.s3eTimerSetTimer g_QrScanTimeout]) := by
  constructor
  · intro hst f env
    have h := onFrame_stopped s f env (by rcases hst with h | h <;> simp [h])
      (by rcases hst with h | h <;> simp [h])
    rw [h]
    exact ⟨rfl, rfl⟩
  · intro hst env
    rw [onScanTick_skip s env (by simp [hst])]
    simp

/-- C17 at the session stopped after a QR code has been decoded. -/
theorem late_notification_is_noop_witness :
    (stop foundSession).g_CameraState = CAMERA_IDLE ∧
    onFrame (stop foundSession) (rgbFrame 2 2 S3E_CAMERA_FRAME_ROTNORMAL [20, 21, 22, 23])
      (allocAt 100 200) = (stop foundSession, []) ∧
    (onScanTick (stop foundSession) { zbar_scan_image := 1, symbols := [] }).1
      = stop foundSession :=
  have h := late_notification_is_noop (stop foundSession)
  ⟨by decide, (h.1 (Or.inl (by decide)) _ _).1, (h.2 (by decide) _).1⟩

/-- C18 as stated fails: the session stopped after streaming is in Idle, and a scan
tick that fires then arms a further tick: of one pending timer, one is pending after
the tick. -/
theorem tick_after_stop_rearms :
    (stop foundSession).g_CameraState = CAMERA_IDLE ∧
    (onScanTick (stop foundSession) { zbar_scan_image := 0, symbols := [] }).2
      = [Effect.s3eTimerSetTimer 1000] ∧
    fireScanTimer (stop foundSession, 1) { zbar_scan_image := 0, symbols := [] }
      = (stop foundSession, 1) := by
  decide

/-- C18, amended: stopping the session does not end the scan-timer chain. Every scan
tick, in every session state, arms exactly one further tick; a tick that fires once the
session is stopped changes nothing in the session and runs no scan; so with `stop()`
cancelling no timer, the scan-timer requests pending at `stop()` are still pending
after any number of ticks. -/
theorem timer_chain_survives_stop (s : Session) :
    (∀ env, timerArms (onScanTick s env).2 = 1) ∧
    (∀ env, (onScanTick (stop s) env).1 = stop s ∧
      Effect.zbar_scan_image ∉ (onScanTick (stop s) env).2) ∧
    (∀ (pending : Nat) (envs : List ScanEnv),
      envs.foldl fireScanTimer (stop s, pending) = (stop s, pending)) := by
  have harm : ∀ (t : Session) env, timerArms (onScanTick t env).2 = 1 := by
    intro t env
    by_cases h : t.qrCodeFound = false ∧ t.g_CameraState = CAMERA_STREAMING ∧
        t.g_pZBarImage.isSome = true
    · rw [onScanTick_run t env h.1 h.2.1 h.2.2]; rfl
    · rw [onScanTick_skip t env h]; rfl
  have hstop : ∀ env, onScanTick (stop s) env
      = (stop s, [Effect.s3eTimerSetTimer g_QrScanTimeout]) := by
    intro env
    exact onScanTick_skip (stop s) env (by simp [stop, StopCamera])
  refine ⟨harm s, ?_, ?_⟩
  · intro env
    rw [hstop env]
    simp
  · intro pending envs
    induction envs with
    | nil => rfl
    | cons env rest ih =>
      rw [List.foldl_cons]
      have h1 : fireScanTimer (stop s, pending) env = (stop s, pending) := by
        cases pending with
        | zero => rfl
        | succ p =>
          simp only [fireScanTimer, hstop env]
          rfl
      rw [h1]
      exact ih

/-- C18, amended, at the session stopped after a QR code has been decoded, one timer
pending and three ticks. -/
theorem timer_chain_survives_stop_witness :
    [({ zbar_scan_image := 0, symbols := [] } : ScanEnv),
      { zbar_scan_image := 1, symbols := [] },
      { zbar_scan_image := 0, symbols := [] }].foldl fireScanTimer (stop foundSession, 1)
      = (stop foundSession, 1) :=
  (timer_chain_survives_stop foundSession).2.2 1 _

/-- C19: for every width and height the crop window lies inside the frame:
`squareDim ≤ min(width, height)`, `cropX + squareDim ≤ width` and
`cropY + squareDim ≤ height`. -/
theorem crop_window_inside_frame (W H : Nat) :
    (cropWindow W H).squareDim ≤ min W H ∧
    (cropWindow W H).cropX + (cropWindow W H).squareDim ≤ W ∧
    (cropWindow W H).cropY + (cropWindow W H).squareDim ≤ H := by
  obtain ⟨h1, h2, h3, h4⟩ := cropWindow_inside W H
  exact ⟨Nat.le_min.mpr ⟨h1, h2⟩, h3, h4⟩

/-- C20: in every state reached from the initial state by a sequence of `start`,
`stop`, `onStreamStopped`, `onFrame`, `onScanTick` and `requestRescan`, the frames
having fewer than `2^31` pixels each: if the recognition image exists, then the
recognition engine exists, the display buffer and the luma buffer are allocated, the
image's width and height are the stored `squareDim`, its data is the current luma
buffer with length `squareDim * squareDim`, the luma buffer has that size and that
many elements, and the display buffer has `2 * squareDim * squareDim` bytes and
`squareDim * squareDim` pixels. -/
theorem image_stays_bound (ops : List Op) (img : zbar_image_t)
    (hfit : ∀ op ∈ ops, opFits op = true)
    (himg : (run initialSession ops).g_pZBarImage = some img) :
    (run initialSession ops).g_pZBarScanner = true ∧
    ∃ texels gray,
      (run initialSession ops).g_pCameraTexelsRGB565 = some texels ∧
      (run initialSession ops).g_pCameraPixelsGrayscale = some gray ∧
      img.width = (run initialSession ops).g_CameraSquareDimension ∧
      img.height = (run initialSession ops).g_CameraSquareDimension ∧
      img.data = gray.addr ∧
      img.dataLength = (run initialSession ops).g_CameraSquareDimension *
        (run initialSession ops).g_CameraSquareDimension ∧
      gray.size = (run initialSession ops).g_CameraSquareDimension *
        (run initialSession ops).g_CameraSquareDimension ∧
      gray.cells.length = (run initialSession ops).g_CameraSquareDimension *
        (run initialSession ops).g_CameraSquareDimension ∧
      texels.size = 2 * (run initialSession ops).g_CameraSquareDimension *
        (run initialSession ops).g_CameraSquareDimension ∧
      texels.cells.length = (run initialSession ops).g_CameraSquareDimension *
        (run initialSession ops).g_CameraSquareDimension :=
  imageBound_run initialSession ops hfit (imageBound_of_none _ rfl) img himg

/-- C20 at a run in which the buffers are reallocated between two scans: the image
is bound to the luma buffer at its new address 400, and the engine exists. -/
theorem image_stays_bound_witness :
    (∀ op ∈ exampleOps, opFits op = true) ∧
    (run initialSession exampleOps).g_pZBarImage
      = some { width := 2, height := 2, data := 400, dataLength := 4 } ∧
    (run initialSession exampleOps).g_pCameraPixelsGrayscale
      = some { addr := 400, size := 4, cells := [19, 20, 18, 19] } ∧
    (run initialSession exampleOps).g_CameraSquareDimension = 2 ∧
    (run initialSession exampleOps).g_pZBarScanner = true :=
  ⟨by decide, by decide, by decide, by decide,
    (image_stays_bound exampleOps { width := 2, height := 2, data := 400, dataLength := 4 }
      (by decide) (by decide)).1⟩

/-- C21: the writes of the status text stay inside `qrString[512]` exactly for symbol
data of at most 496 bytes. For a QR symbol whose data is 497 letters A, returned by a
scan pass of a Streaming session, the prefix has 15 bytes, the text with its
terminator takes `15 + 497 + 1 = 513` bytes, the terminator is written at index 512
of the 512-byte buffer, and the text the scan pass reports is the prefix followed by
the whole payload. -/
theorem status_text_overflows_buffer :
    (∀ pQrData : String,
      (∀ i ∈ qrStringWrites pQrData, i < qrStringSize) ↔ pQrData.utf8ByteSize ≤ 496) ∧
    "QR Code found: ".utf8ByteSize = 15 ∧
    longPayload.utf8ByteSize = 497 ∧
    ¬ ("QR Code found: ".utf8ByteSize + longPayload.utf8ByteSize + 1 ≤ qrStringSize) ∧
    512 ∈ qrStringWrites longPayload ∧
    ¬ (∀ i ∈ qrStringWrites longPayload, i < qrStringSize) ∧
    scanningSession.qrCodeFound = false ∧
    scanningSession.g_CameraState = CAMERA_STREAMING ∧
    scanningSession.g_pZBarImage.isSome = true ∧
    (onScanTick scanningSession
      { zbar_scan_image := 1,
        symbols := [{ get_type := ZBAR_QRCODE, get_data := longPayload }] }).1.statusCaption
      = "QR Code found: " ++ longPayload := by
  have hp : "QR Code found: ".utf8ByteSize = 15 := by decide
  have hin : 512 ∈ qrStringWrites longPayload := by
    simp only [qrStringWrites, strcpyWrites, strcatWrites, hp, longPayload_size,
      List.mem_append, List.mem_range, List.mem_map]
    exact Or.inr ⟨497, by omega, rfl⟩
  refine ⟨qrStringWrites_inside, hp, longPayload_size, ?_, hin, ?_, by decide, by decide,
    by decide, ?_⟩
  · rw [hp, longPayload_size]
    decide
  · intro h
    exact absurd (h 512 hin) (by decide)
  · rw [onScanTick_run scanningSession _ (by decide) (by decide) (by decide)]
    rfl

end ZBarDemo
